import Mathlib

/-!
Shallow embedding of the water-management billing engine
(`CalculationService` in `src/services/calculationService.ts`, the
period routes in `src/routes/periods.ts`, and the bill routes in
`src/routes/bills.ts`).

Numbers are modelled as rationals (`ℚ`).  Nullable / possibly-NaN
JavaScript numbers are modelled as `Option ℚ` where `none` stands for
`null`/`undefined`/`NaN` — in this code base such a value is only ever
inspected for truthiness or replaced by a default, never used in
arithmetic, so collapsing the non-numeric cases is observationally
faithful.  JavaScript truthiness of a number (`0`, `NaN`, `null`,
`undefined` are falsy) is made explicit with the `jsFalsy`/`jsTruthy`
helpers.
-/

namespace WaterBilling

/-- `PeriodStatus` enum from the Prisma schema. -/
inductive PeriodStatus where
  | OPEN
  | PENDING_RECEIPT
  | CALCULATING
  | CLOSED
deriving DecidableEq, Repr

/-- `BillStatus` enum from the Prisma schema (only `PENDING` is written
by the engine). -/
inductive BillStatus where
  | PENDING
  | SENT
  | PAID
  | OVERDUE
deriving DecidableEq, Repr

/-- `MeterType`: only `WATER` meters participate in the calculation. -/
inductive MeterType where
  | WATER
  | OTHER
deriving DecidableEq, Repr

/-- `UserRole` values used by the routes involved here. -/
inductive UserRole where
  | SUPER_ADMIN
  | ADMIN
  | ANALYST
  | EDITOR
deriving DecidableEq, Repr

/-- A nullable / possibly-NaN JavaScript number: `none` is
`null`/`undefined`/`NaN`, `some q` a finite numeric value. -/
def JsNum : Type := Option ℚ
deriving DecidableEq, Repr

/-- JavaScript falsiness of a nullable number: `null`, `undefined`,
`NaN` and `0` are falsy. -/
def jsFalsy (x : JsNum) : Bool :=
  match x with
  | none => true
  | some q => q == 0

/-- JavaScript truthiness for a `number | undefined` field whose number
may itself be NaN (`Option JsNum`): truthy exactly when it is a finite
non-zero number. -/
def jsTruthy2 (x : Option JsNum) : Bool :=
  match x with
  | some (some q) => q != 0
  | _ => false

/-- Numeric payload of a truthy `Option JsNum` (0 otherwise; only used
after a `jsTruthy2` guard, mirroring the JS `if (x) { ... use x ... }`
pattern). -/
def jsVal2 (x : Option JsNum) : ℚ :=
  match x with
  | some (some q) => q
  | _ => 0

/-- `x || d` on a `number | undefined` map lookup: the value when it is
a finite non-zero number, the default otherwise. -/
def jsOrDefault (x : Option JsNum) (d : ℚ) : ℚ :=
  if jsTruthy2 x then jsVal2 x else d

/-- JavaScript `Math.round`: half rounds toward positive infinity,
i.e. `⌊x + 1/2⌋`. -/
def jsMathRound (x : ℚ) : ℚ := (⌊x + 1/2⌋ : ℤ)

/-- `Math.round(cost * 100) / 100` — round to 2 decimal places. -/
def round2 (x : ℚ) : ℚ := jsMathRound (x * 100) / 100

/-- One `SystemConfig` row, already passed through `parseFloat`
(`none` = the text did not parse to a number, i.e. NaN). -/
structure ConfigRow where
  key : String
  value : JsNum
deriving DecidableEq, Repr

/-- `new Map(configs.map(c => [c.key, parseFloat(c.value)])).get(k)`:
a JS `Map` built from a list keeps the **last** binding of a key. -/
def lookupConfig (configs : List ConfigRow) (k : String) : Option JsNum :=
  (configs.filter (fun c => c.key == k)).getLast?.map (fun c => c.value)

/-- `WaterRates` as produced by `getWaterRates`: `basicRate` is always
a number, the optional fields keep the raw `number | undefined`
(possibly NaN) lookup result. -/
structure WaterRates where
  basicRate : ℚ
  commonAreaRate : Option JsNum
  fixedCharge : Option JsNum
  minimumConsumption : Option JsNum
deriving DecidableEq, Repr

/-- `CalculationService.getWaterRates` (src/services/calculationService.ts
lines 256–274): read the four config keys, defaulting `basicRate` to 1.5
via `configMap.get('water_basic_rate') || 1.5`. -/
def getWaterRates (configs : List ConfigRow) : WaterRates :=
  { basicRate := jsOrDefault (lookupConfig configs "water_basic_rate") 1.5
    commonAreaRate := lookupConfig configs "water_common_area_rate"
    fixedCharge := lookupConfig configs "water_fixed_charge"
    minimumConsumption := lookupConfig configs "water_minimum_consumption" }

/-- `CalculationService.calculateIndividualCost` (lines 300–308):
`cost = consumption * basicRate`, plus `fixedCharge` when truthy,
rounded once to 2 decimals. -/
def calculateIndividualCost (consumption : ℚ) (rates : WaterRates) : ℚ :=
  round2 (consumption * rates.basicRate +
    (if jsTruthy2 rates.fixedCharge then jsVal2 rates.fixedCharge else 0))

/-- The minimum-consumption clamp from the unit loop (lines 154–156):
`if (waterRates.minimumConsumption && consumption < waterRates.minimumConsumption)
 consumption = waterRates.minimumConsumption`. -/
def applyMinimumConsumption (rates : WaterRates) (consumption : ℚ) : ℚ :=
  if jsTruthy2 rates.minimumConsumption ∧
      consumption < jsVal2 rates.minimumConsumption then
    jsVal2 rates.minimumConsumption
  else consumption

/-! ## Database records consumed by the calculation pass -/

/-- A `Meter` row (only the fields the engine reads). -/
structure MeterRec where
  id : String
  isActive : Bool
  mtype : MeterType
deriving DecidableEq, Repr

/-- A `Unit` row with its meters (as included by the Prisma query). -/
structure UnitRec where
  id : String
  name : String
  isActive : Bool
  residentName : Option String
  meters : List MeterRec
deriving DecidableEq, Repr

/-- A `Block` row with its units. -/
structure BlockRec where
  name : String
  units : List UnitRec
deriving DecidableEq, Repr

/-- A `Condominium` row with its blocks. -/
structure CondoRec where
  id : String
  blocks : List BlockRec
deriving DecidableEq, Repr

/-- A `Reading` row.  `createdAt` is a timestamp (ordering is all that
matters). -/
structure ReadingRec where
  meterId : String
  periodId : String
  value : ℚ
  createdAt : ℕ
  isAnomalous : Bool
  isValidated : Bool
deriving DecidableEq, Repr

/-- A `Period` row.  `totalVolume`/`totalAmount` are nullable numbers. -/
structure PeriodRec where
  id : String
  condominiumId : String
  status : PeriodStatus
  totalVolume : JsNum
  totalAmount : JsNum
  createdAt : ℕ
deriving DecidableEq, Repr

/-- The slice of the database the calculation pass reads: periods,
condominium/block/unit/meter hierarchy, all readings, and the
`SystemConfig` rows. -/
structure CalcDB where
  periods : List PeriodRec
  condos : List CondoRec
  readings : List ReadingRec
  configs : List ConfigRow
deriving DecidableEq, Repr

/-- Readings belonging to a period (the `readings` relation included on
the period query). -/
def periodReadings (db : CalcDB) (pid : String) : List ReadingRec :=
  db.readings.filter (fun r => r.periodId == pid)

/-- Whether a reading's owning period is a CLOSED period of the given
condominium (the `period: { condominiumId, status: CLOSED }` relation
filter of `getPreviousReadings`). -/
def readingInClosedPeriod (db : CalcDB) (condominiumId : String)
    (r : ReadingRec) : Bool :=
  match db.periods.find? (fun p => p.id == r.periodId) with
  | some p => p.condominiumId == condominiumId && p.status == PeriodStatus.CLOSED
  | none => false

/-- The element with the greatest key (first in list order on ties):
the semantics of a Prisma `orderBy: desc` followed by taking the first
row (`findFirst` / `distinct`). -/
def pickLatest {α : Type} (f : α → ℕ) (l : List α) : Option α :=
  l.foldl
    (fun best x =>
      match best with
      | none => some x
      | some b => if f x > f b then some x else best)
    none

/-- `CalculationService.getPreviousReadings` (lines 276–298), per meter:
the Prisma query `orderBy: { createdAt: 'desc' }, distinct: ['meterId']`
keeps, for each meter, the reading with the greatest `createdAt` among
that meter's readings in CLOSED periods of the condominium (first in
list order on ties, matching a stable descending sort). -/
def getPreviousReading (db : CalcDB) (condominiumId meterId : String) :
    Option ReadingRec :=
  pickLatest (fun r => r.createdAt)
    (db.readings.filter (fun r =>
      r.meterId == meterId && readingInClosedPeriod db condominiumId r))

/-- The `Map` returned by `getPreviousReadings(condominiumId, meterIds)`
(lines 276–298), as an association list from meter id to the previous
reading's value (the `periodId` component of the map entries is never
read by the caller). -/
def getPreviousReadings (db : CalcDB) (condominiumId : String)
    (meterIds : List String) : List (String × ℚ) :=
  meterIds.filterMap (fun mid =>
    (getPreviousReading db condominiumId mid).map (fun r => (mid, r.value)))

/-- `previousReadings.get(meter.id)` on the association list. -/
def lookupPrev (l : List (String × ℚ)) (mid : String) : Option ℚ :=
  (l.find? (fun e => e.1 == mid)).map (fun e => e.2)

/-- Active WATER meters of a unit, as filtered by the Prisma include
`meters: { where: { isActive: true, type: 'WATER' } }`. -/
def waterMeters (u : UnitRec) : List MeterRec :=
  u.meters.filter (fun m => m.isActive && m.mtype == MeterType.WATER)

/-- One entry of the `activeUnits` array: a unit together with its
block name and its primary water meter (`unit.meters[0]`). -/
structure ActiveUnit where
  unitId : String
  unitName : String
  blockName : String
  residentName : Option String
  meterId : String
deriving DecidableEq, Repr

/-- The `activeUnits` computation (lines 113–118): for each block, the
active units that still have at least one active water meter, tagged
with the block name; `unit.meters[0]` is the primary meter. -/
def activeUnitsOf (blocks : List BlockRec) : List ActiveUnit :=
  blocks.flatMap (fun b =>
    b.units.filterMap (fun u =>
      if u.isActive then
        match waterMeters u with
        | [] => none
        | m :: _ =>
          some { unitId := u.id, unitName := u.name, blockName := b.name,
                 residentName := u.residentName, meterId := m.id }
      else none))

/-- An anomaly entry.  The source builds strings; each constructor
carries exactly the data interpolated into the corresponding message,
so the abstraction is lossless. -/
inductive Anomaly where
  /-- `Missing reading for unit ${unit.name} in block ${blockName}` -/
  | missingReading (unitName blockName : String)
  /-- `Meter replacement detected for unit ${unit.name}: previous=…, current=…` -/
  | meterReplacement (unitName : String) (previous current : ℚ)
  /-- `Total calculation mismatch: calculated=…, receipt=…, difference=…` -/
  | totalMismatch (calculated receipt difference : ℚ)
deriving DecidableEq, Repr

/-- `ExtraCharge` (fixed amount or percentage). -/
inductive ExtraChargeType where
  | fixed
  | percentage
deriving DecidableEq, Repr

/-- An extra charge applied to a bill. -/
structure ExtraCharge where
  description : String
  amount : ℚ
  ctype : ExtraChargeType
deriving DecidableEq, Repr

/-- `BillData`, the per-unit output record of the calculation. -/
structure BillData where
  unitId : String
  unitName : String
  blockName : String
  residentName : Option String
  currentReading : ℚ
  previousReading : ℚ
  consumption : ℚ
  individualCost : ℚ
  commonAreaCost : ℚ
  totalCost : ℚ
  extraCharges : Option (List ExtraCharge)
deriving DecidableEq, Repr

/-- `CalculationResult` returned by `calculatePeriodBills`. -/
structure CalculationResult where
  totalIndividualConsumption : ℚ
  commonAreaConsumption : ℚ
  commonAreaCostPerUnit : ℚ
  bills : List BillData
  anomalies : List Anomaly
deriving DecidableEq, Repr

/-! ## The per-unit consumption loop (lines 126–177) -/

/-- Mutable state of the unit loop: `bills`, `anomalies`,
`totalIndividualConsumption`. -/
structure LoopState where
  bills : List BillData
  anomalies : List Anomaly
  totalIndividualConsumption : ℚ
deriving DecidableEq, Repr

/-- Read-only context of the unit loop: the period's readings, the
previous-readings map and the rates. -/
structure LoopCtx where
  readings : List ReadingRec
  previousReadings : List (String × ℚ)
  rates : WaterRates
deriving Repr

/-- One iteration of `for (const unit of activeUnits)` (lines 131–177):
skip with an anomaly when the current reading is missing; otherwise
compute consumption (meter-replacement fallback to the current value
when the delta is negative, then the minimum-consumption clamp), the
individual cost, and push a bill with `commonAreaCost`/`totalCost`
still 0. -/
def stepUnit (ctx : LoopCtx) (s : LoopState) (au : ActiveUnit) : LoopState :=
  match ctx.readings.find? (fun r => r.meterId == au.meterId) with
  | none =>
    { s with anomalies :=
        s.anomalies ++ [Anomaly.missingReading au.unitName au.blockName] }
  | some current =>
    -- `previousReading?.value || 0` (a stored value of 0 and an absent
    -- reading both yield 0)
    let previousValue := (lookupPrev ctx.previousReadings au.meterId).getD 0
    let raw := current.value - previousValue
    let replaced := raw < 0
    let consumption0 := if replaced then current.value else raw
    let consumption := applyMinimumConsumption ctx.rates consumption0
    let individualCost := calculateIndividualCost consumption ctx.rates
    { bills := s.bills ++ [{
        unitId := au.unitId
        unitName := au.unitName
        blockName := au.blockName
        residentName := au.residentName
        currentReading := current.value
        previousReading := previousValue
        consumption := consumption
        individualCost := individualCost
        commonAreaCost := 0
        totalCost := 0
        extraCharges := none }]
      anomalies := s.anomalies ++
        (if replaced then
          [Anomaly.meterReplacement au.unitName previousValue current.value]
        else [])
      totalIndividualConsumption := s.totalIndividualConsumption + consumption }

/-- The whole unit loop as a fold. -/
def runLoop (ctx : LoopCtx) (activeUnits : List ActiveUnit) : LoopState :=
  activeUnits.foldl (stepUnit ctx) ⟨[], [], 0⟩

/-! ## Common-area allocation and extra charges (lines 179–211) -/

/-- `CalculationService.getExtraCharges` (lines 310–314): the source
returns an empty array unconditionally. -/
def getExtraCharges (_unitId _condominiumId : String) : List ExtraCharge :=
  []

/-- The `extraCharges.reduce` of lines 193–198: each percentage charge
is computed against `base` — the bill's `totalCost` **at entry to the
reduce**, which is not mutated until after it (`bill.totalCost +=
extraTotal` runs once the reduce is finished). -/
def extraTotal (base : ℚ) (charges : List ExtraCharge) : ℚ :=
  charges.foldl
    (fun sum charge =>
      sum + (if charge.ctype == ExtraChargeType.percentage then
          base * (charge.amount / 100)
        else charge.amount))
    0

/-- The extra-charge portion of the `bills.forEach` body (lines
189–200), abstracted over the charge list: starting from a bill whose
`totalCost` is `base`, attach the charges and add `extraTotal` once. -/
def applyExtraCharges (base : ℚ) (charges : List ExtraCharge) : ℚ :=
  if charges.length > 0 then base + extraTotal base charges else base

/-- The full `bills.forEach` body (lines 185–201): set the flat
`commonAreaCost`, set `totalCost = individualCost + commonAreaCost`,
then apply the unit's extra charges. -/
def applyAllocation (condominiumId : String) (commonAreaCostPerUnit : ℚ)
    (b : BillData) : BillData :=
  let b1 := { b with
    commonAreaCost := commonAreaCostPerUnit
    totalCost := b.individualCost + commonAreaCostPerUnit }
  let extraCharges := getExtraCharges b1.unitId condominiumId
  if extraCharges.length > 0 then
    { b1 with
      extraCharges := some extraCharges
      totalCost := applyExtraCharges b1.totalCost extraCharges }
  else b1

/-- Line 181: `commonAreaTotalCost = Math.max(0, period.totalAmount -
bills.reduce((sum, bill) => sum + bill.individualCost, 0))`. -/
def commonAreaTotalCostOf (totalAmount : ℚ) (bills : List BillData) : ℚ :=
  max 0 (totalAmount - (bills.map (fun b => b.individualCost)).sum)

/-- The pure core of `calculatePeriodBills` after the guards: run the
unit loop, derive common-area quantities, allocate them, and append the
reconciliation-mismatch anomaly when the grand total strays from the
receipt by more than 0.01. -/
def runCalc (ctx : LoopCtx) (condominiumId : String)
    (activeUnits : List ActiveUnit) (totalVolume totalAmount : ℚ) :
    CalculationResult :=
  let st := runLoop ctx activeUnits
  let commonAreaConsumption :=
    max 0 (totalVolume - st.totalIndividualConsumption)
  let commonAreaCostPerUnit :=
    if st.bills.length > 0 then
      commonAreaTotalCostOf totalAmount st.bills / st.bills.length
    else 0
  let bills := st.bills.map (applyAllocation condominiumId commonAreaCostPerUnit)
  let calculatedTotal := (bills.map (fun b => b.totalCost)).sum
  let difference := |calculatedTotal - totalAmount|
  let anomalies :=
    if difference > 1/100 then
      st.anomalies ++
        [Anomaly.totalMismatch calculatedTotal totalAmount difference]
    else st.anomalies
  { totalIndividualConsumption := st.totalIndividualConsumption
    commonAreaConsumption := commonAreaConsumption
    commonAreaCostPerUnit := commonAreaCostPerUnit
    bills := bills
    anomalies := anomalies }

/-- Blocks of a condominium.  Relational integrity guarantees a
period's condominium exists; an absent condominium yields no blocks. -/
def condoBlocks (db : CalcDB) (condominiumId : String) : List BlockRec :=
  ((db.condos.find? (fun c => c.id == condominiumId)).map
    (fun c => c.blocks)).getD []

/-- The loop context assembled by `calculatePeriodBills`: the period's
readings, the previous-readings map for the active units' meters, and
the resolved rates. -/
def calcCtx (db : CalcDB) (pid : String) (period : PeriodRec) : LoopCtx :=
  { readings := periodReadings db pid
    previousReadings := getPreviousReadings db period.condominiumId
      ((activeUnitsOf (condoBlocks db period.condominiumId)).map
        (fun au => au.meterId))
    rates := getWaterRates db.configs }

/-- `CalculationService.calculatePeriodBills` (lines 41–220): look the
period up, reject when it is absent, not CALCULATING, or has falsy
(`null`/`NaN`/`0`) receipt totals, then run the calculation pass. -/
def calculatePeriodBills (db : CalcDB) (pid : String) :
    Except String CalculationResult :=
  match db.periods.find? (fun p => p.id == pid) with
  | none => .error "Period not found"
  | some period =>
    if period.status ≠ PeriodStatus.CALCULATING then
      .error "Period is not ready for calculation"
    else if jsFalsy period.totalVolume || jsFalsy period.totalAmount then
      .error "Period receipt data is incomplete"
    else
      .ok (runCalc (calcCtx db pid period) period.condominiumId
        (activeUnitsOf (condoBlocks db period.condominiumId))
        (period.totalVolume.getD 0) (period.totalAmount.getD 0))

/-! ## Pre-flight validation (lines 316–395) -/

/-- One validation error.  Constructors carry the data interpolated
into the corresponding message string. -/
inductive ValidationError where
  /-- `Period not found` -/
  | periodNotFound
  /-- `Period status must be CALCULATING, current: ${status}` -/
  | wrongStatus (current : PeriodStatus)
  /-- `Total volume from receipt is required and must be positive` -/
  | totalVolumeInvalid
  /-- `Total amount from receipt is required and must be positive` -/
  | totalAmountInvalid
  /-- `Missing readings for ${n} units: …` -/
  | missingReadings (units : List (String × String))
  /-- `${n} anomalous readings need validation` -/
  | anomalousReadings (count : ℕ)
deriving DecidableEq, Repr

/-- `CalculationService.validatePeriodForCalculation` (lines 316–395):
collect precondition errors; `isValid` iff none. The volume/amount
checks are `!x || x <= 0`, so they do flag negative values. -/
def validatePeriodForCalculation (db : CalcDB) (pid : String) :
    Bool × List ValidationError :=
  match db.periods.find? (fun p => p.id == pid) with
  | none => (false, [ValidationError.periodNotFound])
  | some period =>
    let errs1 :=
      if period.status ≠ PeriodStatus.CALCULATING then
        [ValidationError.wrongStatus period.status]
      else []
    let errs2 :=
      if jsFalsy period.totalVolume || period.totalVolume.getD 0 ≤ 0 then
        [ValidationError.totalVolumeInvalid]
      else []
    let errs3 :=
      if jsFalsy period.totalAmount || period.totalAmount.getD 0 ≤ 0 then
        [ValidationError.totalAmountInvalid]
      else []
    let activeUnits := activeUnitsOf (condoBlocks db period.condominiumId)
    let readingMeterIds := (periodReadings db pid).map (fun r => r.meterId)
    let missing := activeUnits.filter
      (fun au => !(readingMeterIds.contains au.meterId))
    let errs4 :=
      if missing.length > 0 then
        [ValidationError.missingReadings
          (missing.map (fun au => (au.blockName, au.unitName)))]
      else []
    let anomalous := (periodReadings db pid).filter
      (fun r => r.isAnomalous && !r.isValidated)
    let errs5 :=
      if anomalous.length > 0 then
        [ValidationError.anomalousReadings anomalous.length]
      else []
    let errors := errs1 ++ errs2 ++ errs3 ++ errs4 ++ errs5
    (errors.isEmpty, errors)

/-! ## Persistence: `saveBills` (lines 222–254)

The source issues three *separate* Prisma calls — `bill.deleteMany`,
`bill.createMany`, `period.update` — with no `$transaction` wrapper.
We model the persisted state and each call as one atomic database
operation; an interrupted run is the fold over a prefix of the
operation list. -/

/-- A persisted `Bill` row as written by `saveBills`
(`extraCharges as any || []`, `status: PENDING`). -/
structure BillRow where
  periodId : String
  unitId : String
  currentReading : ℚ
  previousReading : ℚ
  consumption : ℚ
  individualCost : ℚ
  commonAreaCost : ℚ
  totalCost : ℚ
  extraCharges : List ExtraCharge
  status : BillStatus
deriving DecidableEq, Repr

/-- Period row as touched by persistence: status and `endDate`
(a timestamp, `none` = null). -/
structure PeriodRow where
  id : String
  status : PeriodStatus
  endDate : Option ℕ
deriving DecidableEq, Repr

/-- The persisted state `saveBills` operates on. -/
structure PersistDB where
  bills : List BillRow
  periods : List PeriodRow
deriving DecidableEq, Repr

/-- The `billsData` mapping of lines 229–240. -/
def toBillRow (pid : String) (b : BillData) : BillRow :=
  { periodId := pid
    unitId := b.unitId
    currentReading := b.currentReading
    previousReading := b.previousReading
    consumption := b.consumption
    individualCost := b.individualCost
    commonAreaCost := b.commonAreaCost
    totalCost := b.totalCost
    extraCharges := b.extraCharges.getD []
    status := BillStatus.PENDING }

/-- `prisma.bill.deleteMany({ where: { periodId } })`. -/
def deleteBillsStep (pid : String) (db : PersistDB) : PersistDB :=
  { db with bills := db.bills.filter (fun b => b.periodId ≠ pid) }

/-- `prisma.bill.createMany({ data: billsData })`. -/
def insertBillsStep (pid : String) (result : CalculationResult)
    (db : PersistDB) : PersistDB :=
  { db with bills := db.bills ++ result.bills.map (toBillRow pid) }

/-- `prisma.period.update({ … status: CLOSED, endDate: new Date() })`. -/
def closePeriodStep (pid : String) (now : ℕ) (db : PersistDB) : PersistDB :=
  { db with periods := db.periods.map (fun p =>
      if p.id = pid then { p with status := PeriodStatus.CLOSED,
                                  endDate := some now }
      else p) }

/-- `CalculationService.saveBills` as its sequence of database
operations, in source order.  There is no `$transaction` in the source:
each list element commits on its own. -/
def saveBillsSteps (pid : String) (result : CalculationResult) (now : ℕ) :
    List (PersistDB → PersistDB) :=
  [deleteBillsStep pid, insertBillsStep pid result, closePeriodStep pid now]

/-- State observable after the first `n` operations have committed
(a persistence failure right after the `n`-th call leaves exactly this
state). -/
def runFirstSteps (steps : List (PersistDB → PersistDB)) (n : ℕ)
    (db : PersistDB) : PersistDB :=
  (steps.take n).foldl (fun d f => f d) db

/-- Status of a period in the persisted state (`none` when absent). -/
def persistStatus (db : PersistDB) (pid : String) : Option PeriodStatus :=
  (db.periods.find? (fun p => p.id = pid)).map (fun p => p.status)

/-! ## Reopen route: `DELETE /:periodId/calculations`
(src/routes/periods.ts lines 1216–1269) -/

/-- A `UnitCalculation` row (only its owning period matters here). -/
structure UnitCalcRow where
  periodId : String
  unitId : String
deriving DecidableEq, Repr

/-- A `PeriodCalculation` row. -/
structure PeriodCalcRow where
  periodId : String
deriving DecidableEq, Repr

/-- The state the reopen route touches: periods, stored calculations,
and the `Bill` table (which the route does **not** touch — kept here so
that is observable). -/
structure ReopenDB where
  periods : List PeriodRow
  unitCalcs : List UnitCalcRow
  periodCalcs : List PeriodCalcRow
  bills : List BillRow
deriving DecidableEq, Repr

/-- The reopen handler: privilege gate, existence gate, CLOSED gate
(each `throw createError(message, httpStatus)` happens before any
write), then one transaction deleting the stored calculations and
resetting the status to `PENDING_RECEIPT`. -/
def reopenPeriod (role : UserRole) (db : ReopenDB) (pid : String) :
    Except (String × ℕ) ReopenDB :=
  if role ≠ UserRole.SUPER_ADMIN then
    .error ("Access denied. Only Super Admin can reopen periods.", 403)
  else
    match db.periods.find? (fun p => p.id = pid) with
    | none => .error ("Period not found", 404)
    | some period =>
      if period.status ≠ PeriodStatus.CLOSED then
        .error ("Can only delete calculations from closed periods", 400)
      else
        .ok { db with
          unitCalcs := db.unitCalcs.filter (fun c => c.periodId ≠ pid)
          periodCalcs := db.periodCalcs.filter (fun c => c.periodId ≠ pid)
          periods := db.periods.map (fun p =>
            if p.id = pid then { p with status := PeriodStatus.PENDING_RECEIPT }
            else p) }

/-! ## Definitions transcribing the specification's words
(for refinement comparisons against the source definitions above) -/

/-- Modelled from the spec: "percentage ones computed against that
running total at time of application … charges are cumulative, each
applied against the total-so-far" — a fold where each charge updates
the running total before the next is applied. -/
def applyExtraChargesSpec (base : ℚ) (charges : List ExtraCharge) : ℚ :=
  charges.foldl
    (fun total charge =>
      total + (if charge.ctype == ExtraChargeType.percentage then
          total * (charge.amount / 100)
        else charge.amount))
    base

/-- Modelled from the spec: "the most recent CLOSED period of the same
condominium" (greatest `createdAt` among CLOSED periods of the
condominium; first in list order on ties). -/
def mostRecentClosedPeriod (db : CalcDB) (condominiumId : String) :
    Option PeriodRec :=
  pickLatest (fun p => p.createdAt)
    (db.periods.filter (fun p =>
      p.condominiumId == condominiumId && p.status == PeriodStatus.CLOSED))

/-- Modelled from the spec: "the most recent Reading for the same meter
from the most recent CLOSED period for the same condominium; absence
treated as zero" — look only inside the most recent CLOSED period. -/
def specPreviousReadingValue (db : CalcDB) (condominiumId meterId : String) :
    ℚ :=
  match mostRecentClosedPeriod db condominiumId with
  | none => 0
  | some p =>
    ((pickLatest (fun r => r.createdAt)
        (db.readings.filter (fun r =>
          r.meterId == meterId && r.periodId == p.id))).map
      (fun r => r.value)).getD 0

/-! ## Characterization of the unit loop -/

/-- The bill a single unit contributes (none when its current reading
is missing). -/
def billOfUnit (ctx : LoopCtx) (au : ActiveUnit) : Option BillData :=
  match ctx.readings.find? (fun r => r.meterId == au.meterId) with
  | none => none
  | some current =>
    let previousValue := (lookupPrev ctx.previousReadings au.meterId).getD 0
    let raw := current.value - previousValue
    let consumption := applyMinimumConsumption ctx.rates
      (if raw < 0 then current.value else raw)
    some { unitId := au.unitId
           unitName := au.unitName
           blockName := au.blockName
           residentName := au.residentName
           currentReading := current.value
           previousReading := previousValue
           consumption := consumption
           individualCost := calculateIndividualCost consumption ctx.rates
           commonAreaCost := 0
           totalCost := 0
           extraCharges := none }

/-- The anomalies a single unit contributes. -/
def anomsOfUnit (ctx : LoopCtx) (au : ActiveUnit) : List Anomaly :=
  match ctx.readings.find? (fun r => r.meterId == au.meterId) with
  | none => [Anomaly.missingReading au.unitName au.blockName]
  | some current =>
    let previousValue := (lookupPrev ctx.previousReadings au.meterId).getD 0
    if current.value - previousValue < 0 then
      [Anomaly.meterReplacement au.unitName previousValue current.value]
    else []

/-- The consumption a single unit contributes to the running total
(0 when its current reading is missing). -/
def consumptionOfUnit (ctx : LoopCtx) (au : ActiveUnit) : ℚ :=
  match ctx.readings.find? (fun r => r.meterId == au.meterId) with
  | none => 0
  | some current =>
    let previousValue := (lookupPrev ctx.previousReadings au.meterId).getD 0
    let raw := current.value - previousValue
    applyMinimumConsumption ctx.rates (if raw < 0 then current.value else raw)

theorem stepUnit_eq (ctx : LoopCtx) (s : LoopState) (au : ActiveUnit) :
    stepUnit ctx s au =
      { bills := s.bills ++ (billOfUnit ctx au).toList
        anomalies := s.anomalies ++ anomsOfUnit ctx au
        totalIndividualConsumption :=
          s.totalIndividualConsumption + consumptionOfUnit ctx au } := by
  cases h : ctx.readings.find? (fun r => r.meterId == au.meterId) with
  | none => simp [stepUnit, billOfUnit, anomsOfUnit, consumptionOfUnit, h]
  | some current =>
    by_cases hneg : current.value - (lookupPrev ctx.previousReadings au.meterId).getD 0 < 0 <;>
      simp [stepUnit, billOfUnit, anomsOfUnit, consumptionOfUnit, h, hneg]

theorem foldl_stepUnit_eq (ctx : LoopCtx) (us : List ActiveUnit) :
    ∀ s : LoopState,
      us.foldl (stepUnit ctx) s =
        { bills := s.bills ++ us.flatMap (fun au => (billOfUnit ctx au).toList)
          anomalies := s.anomalies ++ us.flatMap (anomsOfUnit ctx)
          totalIndividualConsumption :=
            s.totalIndividualConsumption +
              (us.map (consumptionOfUnit ctx)).sum } := by
  induction us with
  | nil => intro s; simp
  | cons au us ih =>
    intro s
    simp only [List.foldl_cons, ih, stepUnit_eq, List.flatMap_cons,
      List.map_cons, List.sum_cons, List.append_assoc, add_assoc]

/-- The loop state in closed form. -/
theorem runLoop_eq (ctx : LoopCtx) (us : List ActiveUnit) :
    runLoop ctx us =
      { bills := us.flatMap (fun au => (billOfUnit ctx au).toList)
        anomalies := us.flatMap (anomsOfUnit ctx)
        totalIndividualConsumption :=
          (us.map (consumptionOfUnit ctx)).sum } := by
  simpa [runLoop] using foldl_stepUnit_eq ctx us ⟨[], [], 0⟩

/-! ## Small computation helpers -/

@[simp] theorem beq_periodStatus (a b : PeriodStatus) :
    (a == b) = decide (a = b) := rfl

@[simp] theorem beq_meterType (a b : MeterType) :
    (a == b) = decide (a = b) := rfl

@[simp] theorem beq_billStatus (a b : BillStatus) :
    (a == b) = decide (a = b) := rfl

@[simp] theorem beq_extraChargeType (a b : ExtraChargeType) :
    (a == b) = decide (a = b) := rfl

/-- `jsMathRound` is Mathlib's `round` on `ℚ`. -/
theorem jsMathRound_eq_round (x : ℚ) : jsMathRound x = round x := by
  rw [round_eq]; rfl

/-! ## Characterization lemmas -/

theorem pickLatest_go {α : Type} (f : α → ℕ) (l : List α) :
    ∀ b : α,
      ∃ c, l.foldl
          (fun best x =>
            match best with
            | none => some x
            | some b => if f x > f b then some x else best)
          (some b) = some c ∧
        c ∈ b :: l ∧ f b ≤ f c ∧ ∀ y ∈ l, f y ≤ f c := by
  induction l with
  | nil => intro b; exact ⟨b, rfl, by simp, le_refl _, by simp⟩
  | cons x l ih =>
    intro b
    by_cases hx : f x > f b
    · obtain ⟨c, hc, hmem, hble, hall⟩ := ih x
      refine ⟨c, ?_, ?_, ?_, ?_⟩
      · simpa [hx] using hc
      · rcases List.mem_cons.mp hmem with h | h
        · simp [h]
        · simp [List.mem_cons, h]
      · exact le_trans (le_of_lt hx) hble
      · intro y hy
        rcases List.mem_cons.mp hy with h | h
        · exact h ▸ hble
        · exact hall y h
    · obtain ⟨c, hc, hmem, hble, hall⟩ := ih b
      refine ⟨c, ?_, ?_, hble, ?_⟩
      · simpa [hx] using hc
      · rcases List.mem_cons.mp hmem with h | h
        · simp [h]
        · simp [List.mem_cons, h]
      · intro y hy
        rcases List.mem_cons.mp hy with h | h
        · exact h ▸ le_trans (not_lt.mp hx) hble
        · exact hall y h

/-- `pickLatest` returns `none` exactly on the empty list. -/
theorem pickLatest_eq_none_iff {α : Type} (f : α → ℕ) (l : List α) :
    pickLatest f l = none ↔ l = [] := by
  cases l with
  | nil => simp [pickLatest]
  | cons x l =>
    obtain ⟨c, hc, -, -, -⟩ := pickLatest_go f l x
    simp [pickLatest, hc]

/-- `pickLatest` returns a member whose key is maximal. -/
theorem pickLatest_spec {α : Type} (f : α → ℕ) (l : List α) (c : α)
    (h : pickLatest f l = some c) : c ∈ l ∧ ∀ y ∈ l, f y ≤ f c := by
  cases l with
  | nil => simp [pickLatest] at h
  | cons x l =>
    obtain ⟨c', hc', hmem, hxle, hall⟩ := pickLatest_go f l x
    rw [pickLatest, List.foldl_cons] at h
    rw [show (match (none : Option _) with
        | none => some x
        | some b => if f x > f b then some x else b) = some x from rfl] at h
    rw [hc'] at h
    cases h
    refine ⟨hmem, ?_⟩
    intro y hy
    rcases List.mem_cons.mp hy with h | h
    · exact h ▸ hxle
    · exact hall y h

/-- Every entry of the previous-readings map for key `mid` carries the
value of `getPreviousReading` at `mid`, so a lookup only depends on
whether `mid` is among the requested meter ids. -/
theorem getPreviousReadings_cons (db : CalcDB) (cid : String)
    (m : String) (ms : List String) :
    getPreviousReadings db cid (m :: ms) =
      (match getPreviousReading db cid m with
       | none => getPreviousReadings db cid ms
       | some r => (m, r.value) :: getPreviousReadings db cid ms) := by
  cases hr : getPreviousReading db cid m <;>
    simp [getPreviousReadings, hr]

theorem lookupPrev_cons (e : String × ℚ) (l : List (String × ℚ))
    (mid : String) :
    lookupPrev (e :: l) mid =
      if e.1 = mid then some e.2 else lookupPrev l mid := by
  by_cases h : e.1 = mid <;> simp [lookupPrev, List.find?_cons, h]

theorem lookupPrev_getPreviousReadings (db : CalcDB) (cid : String)
    (mids : List String) (mid : String) :
    lookupPrev (getPreviousReadings db cid mids) mid =
      if mid ∈ mids then (getPreviousReading db cid mid).map (fun r => r.value)
      else none := by
  induction mids with
  | nil => simp [getPreviousReadings, lookupPrev]
  | cons m ms ih =>
    rw [getPreviousReadings_cons]
    cases hr : getPreviousReading db cid m with
    | none =>
      by_cases hm : mid = m
      · subst hm
        rw [ih, hr]
        by_cases hmem : mid ∈ ms <;> simp [hmem]
      · rw [ih]
        simp [List.mem_cons, hm]
    | some r =>
      rw [lookupPrev_cons]
      by_cases hm : mid = m
      · subst hm
        simp [hr]
      · rw [if_neg (fun h => hm h.symm), ih]
        simp [List.mem_cons, hm]

/-- In the repository `getExtraCharges` returns `[]`, so the
`forEach` body reduces to the flat common-area allocation. -/
theorem applyAllocation_eq (cid : String) (pu : ℚ) (b : BillData) :
    applyAllocation cid pu b =
      { b with commonAreaCost := pu, totalCost := b.individualCost + pu } := by
  simp [applyAllocation, getExtraCharges]

/-- The bills produced by the unit loop. -/
def loopBills (ctx : LoopCtx) (aus : List ActiveUnit) : List BillData :=
  aus.flatMap (fun au => (billOfUnit ctx au).toList)

/-- The anomalies produced by the unit loop. -/
def loopAnoms (ctx : LoopCtx) (aus : List ActiveUnit) : List Anomaly :=
  aus.flatMap (anomsOfUnit ctx)

/-- The running total of individual consumption. -/
def loopTIC (ctx : LoopCtx) (aus : List ActiveUnit) : ℚ :=
  (aus.map (consumptionOfUnit ctx)).sum

/-- Closed form of `runCalc` (using `getExtraCharges = []`). -/
theorem runCalc_eq (ctx : LoopCtx) (cid : String) (aus : List ActiveUnit)
    (vol amt : ℚ) :
    runCalc ctx cid aus vol amt =
      (let bills0 := loopBills ctx aus
       let pu := if bills0.length > 0 then
           commonAreaTotalCostOf amt bills0 / bills0.length
         else 0
       let bills := bills0.map (fun b =>
         { b with commonAreaCost := pu, totalCost := b.individualCost + pu })
       { totalIndividualConsumption := loopTIC ctx aus
         commonAreaConsumption := max 0 (vol - loopTIC ctx aus)
         commonAreaCostPerUnit := pu
         bills := bills
         anomalies :=
           if |(bills.map (fun b => b.totalCost)).sum - amt| > 1/100 then
             loopAnoms ctx aus ++
               [Anomaly.totalMismatch ((bills.map (fun b => b.totalCost)).sum)
                 amt (|(bills.map (fun b => b.totalCost)).sum - amt|)]
           else loopAnoms ctx aus } : CalculationResult) := by
  simp only [runCalc, runLoop_eq, loopBills, loopAnoms, loopTIC]
  have hmap : ∀ (l : List BillData) (pu : ℚ),
      l.map (applyAllocation cid pu) =
        l.map (fun b =>
          { b with commonAreaCost := pu, totalCost := b.individualCost + pu }) := by
    intro l pu
    exact List.map_congr_left (fun b _ => applyAllocation_eq cid pu b)
  rw [hmap]

/-- Successful-run form of `calculatePeriodBills`. -/
theorem calculatePeriodBills_eq_ok (db : CalcDB) (pid : String)
    (period : PeriodRec)
    (hfind : db.periods.find? (fun p => p.id == pid) = some period)
    (hst : period.status = PeriodStatus.CALCULATING)
    (hvol : jsFalsy period.totalVolume = false)
    (hamt : jsFalsy period.totalAmount = false) :
    calculatePeriodBills db pid =
      .ok (runCalc (calcCtx db pid period) period.condominiumId
        (activeUnitsOf (condoBlocks db period.condominiumId))
        (period.totalVolume.getD 0) (period.totalAmount.getD 0)) := by
  simp [calculatePeriodBills, hfind, hst, hvol, hamt]

/-- Inversion: a successful `calculatePeriodBills` run names a found,
CALCULATING period with truthy totals, and the result is `runCalc`. -/
theorem calculatePeriodBills_ok_cases (db : CalcDB) (pid : String)
    (r : CalculationResult) (h : calculatePeriodBills db pid = .ok r) :
    ∃ period, db.periods.find? (fun p => p.id == pid) = some period ∧
      period.status = PeriodStatus.CALCULATING ∧
      jsFalsy period.totalVolume = false ∧
      jsFalsy period.totalAmount = false ∧
      r = runCalc (calcCtx db pid period) period.condominiumId
        (activeUnitsOf (condoBlocks db period.condominiumId))
        (period.totalVolume.getD 0) (period.totalAmount.getD 0) := by
  unfold calculatePeriodBills at h
  cases hfind : db.periods.find? (fun p => p.id == pid) with
  | none => rw [hfind] at h; exact absurd h (by simp)
  | some period =>
    rw [hfind] at h
    by_cases hst : period.status = PeriodStatus.CALCULATING
    · by_cases hvol : jsFalsy period.totalVolume = false
      · by_cases hamt : jsFalsy period.totalAmount = false
        · refine ⟨period, rfl, hst, hvol, hamt, ?_⟩
          simp only [hst, hvol, hamt] at h
          simpa using h.symm
        · simp only [hst, eq_self_iff_true, Bool.not_eq_false] at hamt
          simp [hst, hamt] at h
      · simp only [Bool.not_eq_false] at hvol
        simp [hst, hvol] at h
    · simp [hst] at h

/-- Bills after allocation keep their `individualCost`. -/
theorem map_individualCost_alloc (bills0 : List BillData) (pu : ℚ) :
    ((bills0.map (fun b =>
        { b with commonAreaCost := pu, totalCost := b.individualCost + pu })).map
      (fun b => b.individualCost)) =
      bills0.map (fun b => b.individualCost) := by
  simp only [List.map_map]
  rfl

/-- `commonAreaTotalCostOf` is unchanged by the allocation pass. -/
theorem commonAreaTotalCostOf_alloc (amt : ℚ) (bills0 : List BillData)
    (pu : ℚ) :
    commonAreaTotalCostOf amt (bills0.map (fun b =>
        { b with commonAreaCost := pu, totalCost := b.individualCost + pu })) =
      commonAreaTotalCostOf amt bills0 := by
  simp only [commonAreaTotalCostOf, map_individualCost_alloc]

/-! ## Example database shared by several witnesses: five identical
units, no previous closed period, receipt `totalVolume = 80`,
`totalAmount = 150`. -/

def exPeriod1 : PeriodRec :=
  ⟨"p", "c", PeriodStatus.CALCULATING, some 80, some 150, 10⟩

def exDB1 : CalcDB :=
  { periods := [exPeriod1],
    condos := [⟨"c", [⟨"B", [
      ⟨"u1", "U1", true, none, [⟨"m1", true, MeterType.WATER⟩]⟩,
      ⟨"u2", "U2", true, none, [⟨"m2", true, MeterType.WATER⟩]⟩,
      ⟨"u3", "U3", true, none, [⟨"m3", true, MeterType.WATER⟩]⟩,
      ⟨"u4", "U4", true, none, [⟨"m4", true, MeterType.WATER⟩]⟩,
      ⟨"u5", "U5", true, none, [⟨"m5", true, MeterType.WATER⟩]⟩]⟩]⟩],
    readings := [
      ⟨"m1", "p", 16, 1, false, true⟩,
      ⟨"m2", "p", 16, 2, false, true⟩,
      ⟨"m3", "p", 16, 3, false, true⟩,
      ⟨"m4", "p", 16, 4, false, true⟩,
      ⟨"m5", "p", 16, 5, false, true⟩],
    configs := [] }

def exBill1 (uid un _mid : String) : BillData :=
  ⟨uid, un, "B", none, 16, 0, 16, 24, 6, 30, none⟩

def exResult1 : CalculationResult :=
  { totalIndividualConsumption := 80
    commonAreaConsumption := 0
    commonAreaCostPerUnit := 6
    bills := [exBill1 "u1" "U1" "m1", exBill1 "u2" "U2" "m2",
      exBill1 "u3" "U3" "m3", exBill1 "u4" "U4" "m4", exBill1 "u5" "U5" "m5"]
    anomalies := [] }

def exAUs1 : List ActiveUnit :=
  [⟨"u1", "U1", "B", none, "m1"⟩, ⟨"u2", "U2", "B", none, "m2"⟩,
   ⟨"u3", "U3", "B", none, "m3"⟩, ⟨"u4", "U4", "B", none, "m4"⟩,
   ⟨"u5", "U5", "B", none, "m5"⟩]

def exCtx1 : LoopCtx :=
  { readings := [
      ⟨"m1", "p", 16, 1, false, true⟩,
      ⟨"m2", "p", 16, 2, false, true⟩,
      ⟨"m3", "p", 16, 3, false, true⟩,
      ⟨"m4", "p", 16, 4, false, true⟩,
      ⟨"m5", "p", 16, 5, false, true⟩]
    previousReadings := []
    rates := ⟨1.5, none, none, none⟩ }

def exBill0 (uid un _mid : String) : BillData :=
  ⟨uid, un, "B", none, 16, 0, 16, 24, 0, 0, none⟩

theorem exDB1_find :
    exDB1.periods.find? (fun p => p.id == "p") = some exPeriod1 := by
  simp [exDB1, exPeriod1]

theorem exDB1_au :
    activeUnitsOf (condoBlocks exDB1 exPeriod1.condominiumId) = exAUs1 := by
  simp [exDB1, exPeriod1, condoBlocks, activeUnitsOf, waterMeters, exAUs1]

theorem exDB1_prev :
    getPreviousReadings exDB1 exPeriod1.condominiumId
      (exAUs1.map (fun au => au.meterId)) = [] := by
  simp [exDB1, exPeriod1, exAUs1, getPreviousReadings, getPreviousReading,
    readingInClosedPeriod, pickLatest]

theorem exDB1_ctx : calcCtx exDB1 "p" exPeriod1 = exCtx1 := by
  unfold calcCtx
  rw [exDB1_au, exDB1_prev]
  simp [exCtx1, periodReadings, exDB1, exPeriod1, getWaterRates,
    lookupConfig, jsOrDefault, jsTruthy2, jsVal2]

theorem exDB1_loopBills :
    loopBills exCtx1 exAUs1 =
      [exBill0 "u1" "U1" "m1", exBill0 "u2" "U2" "m2", exBill0 "u3" "U3" "m3",
       exBill0 "u4" "U4" "m4", exBill0 "u5" "U5" "m5"] := by
  simp [loopBills, exCtx1, exAUs1, exBill0, billOfUnit, lookupPrev]
  norm_num [applyMinimumConsumption, jsTruthy2, jsVal2,
    calculateIndividualCost, round2, jsMathRound_eq_round]

theorem exDB1_loopAnoms : loopAnoms exCtx1 exAUs1 = [] := by
  simp [loopAnoms, exCtx1, exAUs1, anomsOfUnit, lookupPrev]

theorem exDB1_loopTIC : loopTIC exCtx1 exAUs1 = 80 := by
  simp [loopTIC, exCtx1, exAUs1, consumptionOfUnit, lookupPrev]
  norm_num [applyMinimumConsumption, jsTruthy2, jsVal2]

theorem exDB1_calc : calculatePeriodBills exDB1 "p" = .ok exResult1 := by
  rw [calculatePeriodBills_eq_ok exDB1 "p" exPeriod1 exDB1_find rfl
    (by norm_num [jsFalsy, exPeriod1]) (by norm_num [jsFalsy, exPeriod1])]
  rw [exDB1_ctx, exDB1_au, runCalc_eq]
  rw [exDB1_loopBills, exDB1_loopAnoms, exDB1_loopTIC]
  norm_num [exPeriod1, exResult1, exBill1, exBill0, commonAreaTotalCostOf,
    max_def]

/-! ## Claims -/

/-- C8: For every input to the calculation, the computed
`commonAreaConsumption` and `commonAreaTotalCost` are never negative:
`commonAreaConsumption = max(0, totalVolume − Σ individualConsumption)`
and `commonAreaTotalCost = max(0, totalAmount − Σ individualCost)`. -/
theorem claim_C8 (db : CalcDB) (pid : String) (period : PeriodRec)
    (r : CalculationResult)
    (hfind : db.periods.find? (fun p => p.id == pid) = some period)
    (hok : calculatePeriodBills db pid = .ok r) :
    r.commonAreaConsumption =
      max 0 (period.totalVolume.getD 0 - r.totalIndividualConsumption) ∧
    0 ≤ r.commonAreaConsumption ∧
    commonAreaTotalCostOf (period.totalAmount.getD 0) r.bills =
      max 0 (period.totalAmount.getD 0 -
        (r.bills.map (fun b => b.individualCost)).sum) ∧
    0 ≤ commonAreaTotalCostOf (period.totalAmount.getD 0) r.bills ∧
    0 ≤ r.commonAreaCostPerUnit := by
  obtain ⟨period', hfind', hst, hvol, hamt, hr⟩ :=
    calculatePeriodBills_ok_cases db pid r hok
  rw [hfind] at hfind'
  cases hfind'
  subst hr
  rw [runCalc_eq]
  refine ⟨rfl, le_max_left 0 _, rfl, le_max_left 0 _, ?_⟩
  by_cases hlen : (loopBills (calcCtx db pid period) (activeUnitsOf
      (condoBlocks db period.condominiumId))).length > 0
  · simp only [hlen, if_pos]
    exact div_nonneg (le_max_left 0 _) (Nat.cast_nonneg _)
  · simp [hlen]

/-- C8 witness: the five-unit example database. -/
theorem claim_C8_witness :
    exResult1.commonAreaConsumption =
      max 0 (exPeriod1.totalVolume.getD 0 -
        exResult1.totalIndividualConsumption) ∧
    0 ≤ exResult1.commonAreaConsumption ∧
    commonAreaTotalCostOf (exPeriod1.totalAmount.getD 0) exResult1.bills =
      max 0 (exPeriod1.totalAmount.getD 0 -
        (exResult1.bills.map (fun b => b.individualCost)).sum) ∧
    0 ≤ commonAreaTotalCostOf (exPeriod1.totalAmount.getD 0) exResult1.bills ∧
    0 ≤ exResult1.commonAreaCostPerUnit :=
  claim_C8 exDB1 "p" exPeriod1 exResult1 exDB1_find exDB1_calc

/-- C7: every billed unit receives the identical flat `commonAreaCost`,
equal to `commonAreaTotalCost` divided by the number of billed units
(0 when no units are billed), independent of the unit's own
consumption. -/
theorem claim_C7 (db : CalcDB) (pid : String) (period : PeriodRec)
    (r : CalculationResult)
    (hfind : db.periods.find? (fun p => p.id == pid) = some period)
    (hok : calculatePeriodBills db pid = .ok r) :
    (∀ b ∈ r.bills, b.commonAreaCost = r.commonAreaCostPerUnit) ∧
    r.commonAreaCostPerUnit =
      (if 0 < r.bills.length then
        commonAreaTotalCostOf (period.totalAmount.getD 0) r.bills /
          r.bills.length
      else 0) := by
  obtain ⟨period', hfind', hst, hvol, hamt, hr⟩ :=
    calculatePeriodBills_ok_cases db pid r hok
  rw [hfind] at hfind'
  cases hfind'
  subst hr
  rw [runCalc_eq]
  constructor
  · intro b hb
    simp only [List.mem_map] at hb
    obtain ⟨b0, -, hb0⟩ := hb
    subst hb0
    rfl
  · simp only [List.length_map, commonAreaTotalCostOf_alloc]

/-- C7 witness: with `totalAmount = 150`, `Σ individualCost = 120` and
5 billed units, every bill's `commonAreaCost` is exactly 6. -/
theorem claim_C7_witness :
    ((∀ b ∈ exResult1.bills, b.commonAreaCost = exResult1.commonAreaCostPerUnit) ∧
      exResult1.commonAreaCostPerUnit =
        (if 0 < exResult1.bills.length then
          commonAreaTotalCostOf (exPeriod1.totalAmount.getD 0) exResult1.bills /
            exResult1.bills.length
        else 0)) ∧
    exResult1.commonAreaCostPerUnit = 6 ∧
    exResult1.bills.length = 5 ∧
    (exResult1.bills.map (fun b => b.individualCost)).sum = 120 ∧
    exPeriod1.totalAmount = some 150 :=
  ⟨claim_C7 exDB1 "p" exPeriod1 exResult1 exDB1_find exDB1_calc,
    by norm_num [exResult1, exBill1, exPeriod1]⟩

/-- Removing every row with a given key makes its lookup miss. -/
theorem lookupConfig_filter_ne (configs : List ConfigRow) (k : String) :
    lookupConfig (configs.filter (fun row => row.key ≠ k)) k = none := by
  induction configs with
  | nil => simp [lookupConfig]
  | cons c cs ih =>
    by_cases hc : c.key = k
    · simp [lookupConfig, List.filter_cons, hc] at ih ⊢
    · simp [lookupConfig, List.filter_cons, hc] at ih ⊢

/-- C10: a present `water_basic_rate` entry whose value parses to 0 or
NaN yields the default `basicRate = 1.5`, exactly as if the entry were
unset; a `fixedCharge` or `minimumConsumption` of 0 behaves identically
to an absent one. -/
theorem claim_C10 (configs : List ConfigRow) (v : JsNum)
    (rates : WaterRates) (c : ℚ)
    (hv : lookupConfig configs "water_basic_rate" = some v)
    (hfalsy : v = some 0 ∨ v = none) :
    (getWaterRates configs).basicRate = 1.5 ∧
    (getWaterRates (configs.filter
      (fun row => row.key ≠ "water_basic_rate"))).basicRate = 1.5 ∧
    calculateIndividualCost c { rates with fixedCharge := some (some 0) } =
      calculateIndividualCost c { rates with fixedCharge := none } ∧
    applyMinimumConsumption { rates with minimumConsumption := some (some 0) } c =
      applyMinimumConsumption { rates with minimumConsumption := none } c := by
  refine ⟨?_, ?_, ?_, ?_⟩
  · rcases hfalsy with h | h <;>
      simp [getWaterRates, hv, h, jsOrDefault, jsTruthy2]
  · rw [show (getWaterRates (configs.filter
        (fun row => row.key ≠ "water_basic_rate"))).basicRate =
          jsOrDefault (lookupConfig (configs.filter
            (fun row => row.key ≠ "water_basic_rate")) "water_basic_rate") 1.5
        from rfl,
      lookupConfig_filter_ne]
    simp [jsOrDefault, jsTruthy2]
  · simp [calculateIndividualCost, jsTruthy2]
  · simp [applyMinimumConsumption, jsTruthy2]

/-- C10 witness: a configuration store whose `water_basic_rate` row
parses to 0. -/
theorem claim_C10_witness :
    (getWaterRates [⟨"water_basic_rate", some 0⟩]).basicRate = 1.5 ∧
    (getWaterRates (([⟨"water_basic_rate", some 0⟩] : List ConfigRow).filter
      (fun row => row.key ≠ "water_basic_rate"))).basicRate = 1.5 ∧
    calculateIndividualCost 3
        { basicRate := 1.5, commonAreaRate := none,
          fixedCharge := some (some 0), minimumConsumption := none } =
      calculateIndividualCost 3
        { basicRate := 1.5, commonAreaRate := none,
          fixedCharge := none, minimumConsumption := none } ∧
    applyMinimumConsumption
        { basicRate := 1.5, commonAreaRate := none,
          fixedCharge := none, minimumConsumption := some (some 0) } 3 =
      applyMinimumConsumption
        { basicRate := 1.5, commonAreaRate := none,
          fixedCharge := none, minimumConsumption := none } 3 :=
  claim_C10 [⟨"water_basic_rate", some 0⟩] (some 0)
    ⟨1.5, none, none, none⟩ 3 (by simp [lookupConfig]) (Or.inl rfl)

/-- The `reduce` of lines 193–198 as a sum over the charge list: every
percentage charge is taken against the same fixed `base`. -/
theorem extraTotal_eq_sum (base : ℚ) (charges : List ExtraCharge) :
    extraTotal base charges =
      (charges.map (fun ch =>
        if ch.ctype = ExtraChargeType.percentage then base * (ch.amount / 100)
        else ch.amount)).sum := by
  have haux : ∀ (l : List ExtraCharge) (a : ℚ),
      l.foldl
        (fun sum charge =>
          sum + (if charge.ctype == ExtraChargeType.percentage then
              base * (charge.amount / 100)
            else charge.amount))
        a =
      a + (l.map (fun ch =>
        if ch.ctype = ExtraChargeType.percentage then base * (ch.amount / 100)
        else ch.amount)).sum := by
    intro l
    induction l with
    | nil => intro a; simp
    | cons ch l ih =>
      intro a
      rw [List.foldl_cons, ih]
      simp only [List.map_cons, List.sum_cons]
      by_cases hch : ch.ctype = ExtraChargeType.percentage <;>
        simp [hch] <;> ring
  unfold extraTotal
  rw [haux charges 0, zero_add]

/-- The charges used in the C2 counterexample: one fixed charge of 10,
then a 10 % charge. -/
def exCharges2 : List ExtraCharge :=
  [⟨"fixed fee", 10, ExtraChargeType.fixed⟩,
   ⟨"surcharge", 10, ExtraChargeType.percentage⟩]

/-- C2 counterexample: on a running total of 100 with a fixed charge of
10 followed by a 10 % charge, the code yields `100 + 10 + 10 = 120`
(the percentage is taken against the base 100), while the claimed
cumulative rule yields `(100 + 10) * 1.1 = 121`. -/
theorem claim_C2_counterexample :
    applyExtraCharges 100 exCharges2 = 120 ∧
    applyExtraChargesSpec 100 exCharges2 = 121 ∧
    applyExtraCharges 100 exCharges2 ≠ applyExtraChargesSpec 100 exCharges2 := by
  norm_num [applyExtraCharges, extraTotal, applyExtraChargesSpec, exCharges2]

/-- C2 (amended): extra charges are applied after the common-area cost
to the base `individualCost + commonAreaCost`, but **not** cumulatively:
each percentage charge is computed against that same base (the bill's
`totalCost` before any extra charge), the contributions are summed, and
the sum is added once.  Moreover the repository's `getExtraCharges`
returns `[]`, so in every calculation result the bills carry no extra
charges at all. -/
theorem claim_C2 (base : ℚ) (charges : List ExtraCharge) (cid uid : String)
    (pu : ℚ) (b : BillData) :
    applyExtraCharges base charges =
      base + (charges.map (fun ch =>
        if ch.ctype = ExtraChargeType.percentage then base * (ch.amount / 100)
        else ch.amount)).sum ∧
    applyAllocation cid pu b =
      { b with commonAreaCost := pu, totalCost := b.individualCost + pu } ∧
    getExtraCharges uid cid = [] := by
  refine ⟨?_, applyAllocation_eq cid pu b, rfl⟩
  cases charges with
  | nil => simp [applyExtraCharges, extraTotal_eq_sum]
  | cons ch l => simp [applyExtraCharges, extraTotal_eq_sum]

/-! ## Persistence example state for C1 -/

def exOldBill : BillRow :=
  ⟨"p", "u0", 5, 0, 5, (15 : ℚ)/2, 2, (19 : ℚ)/2, [], BillStatus.PENDING⟩

def exPersistDB1 : PersistDB :=
  ⟨[exOldBill], [⟨"p", PeriodStatus.CALCULATING, none⟩]⟩

def exNewResult : CalculationResult :=
  ⟨10, 0, 1, [⟨"u1", "U1", "B", none, 20, 10, 10, 15, 1, 16, none⟩], []⟩

/-- C1 counterexample: `saveBills` issues its three Prisma calls with
no `$transaction`; if persistence fails right after the first call
(`bill.deleteMany`) has committed, the period is still CALCULATING but
its prior bills are **gone** — the pre-calculation state is not
preserved and the partial application is observable. -/
theorem claim_C1_counterexample :
    (runFirstSteps (saveBillsSteps "p" exNewResult 99) 1 exPersistDB1).bills = [] ∧
    exPersistDB1.bills = [exOldBill] ∧
    exOldBill.periodId = "p" ∧
    persistStatus (runFirstSteps (saveBillsSteps "p" exNewResult 99) 1
      exPersistDB1) "p" = some PeriodStatus.CALCULATING ∧
    runFirstSteps (saveBillsSteps "p" exNewResult 99) 1 exPersistDB1 ≠
      exPersistDB1 := by
  refine ⟨?_, rfl, rfl, ?_, ?_⟩
  · simp [runFirstSteps, saveBillsSteps, deleteBillsStep, exPersistDB1,
      exOldBill]
  · simp [runFirstSteps, saveBillsSteps, deleteBillsStep, persistStatus,
      exPersistDB1, exOldBill]
  · intro h
    have hb := congrArg PersistDB.bills h
    simp [runFirstSteps, saveBillsSteps, deleteBillsStep, exPersistDB1,
      exOldBill] at hb

/-- C1 (amended): `saveBills` performs delete, bulk-insert and
close-period as three **sequential, individually committed** operations
(no wrapping transaction).  A complete run replaces the period's bills
and closes the period with `endDate = now`; re-running the whole
operation converges to the same state (delete-then-insert is
idempotent); but a failure after only the delete has committed leaves
the period still in its previous status with its prior bills already
deleted. -/
theorem claim_C1 (db : PersistDB) (pid : String)
    (result : CalculationResult) (now : ℕ) :
    (runFirstSteps (saveBillsSteps pid result now) 3 db).bills =
      db.bills.filter (fun b => b.periodId ≠ pid) ++
        result.bills.map (toBillRow pid) ∧
    (runFirstSteps (saveBillsSteps pid result now) 3 db).periods =
      db.periods.map (fun p =>
        if p.id = pid then
          { p with status := PeriodStatus.CLOSED, endDate := some now }
        else p) ∧
    runFirstSteps (saveBillsSteps pid result now) 3
        (runFirstSteps (saveBillsSteps pid result now) 3 db) =
      runFirstSteps (saveBillsSteps pid result now) 3 db ∧
    (runFirstSteps (saveBillsSteps pid result now) 1 db).bills =
      db.bills.filter (fun b => b.periodId ≠ pid) ∧
    (runFirstSteps (saveBillsSteps pid result now) 1 db).periods =
      db.periods := by
  refine ⟨rfl, rfl, ?_, rfl, rfl⟩
  show closePeriodStep pid now (insertBillsStep pid result
      (deleteBillsStep pid (closePeriodStep pid now (insertBillsStep pid result
        (deleteBillsStep pid db))))) =
    closePeriodStep pid now (insertBillsStep pid result
      (deleteBillsStep pid db))
  have hfilter : ∀ l : List BillRow,
      (l.filter (fun b => b.periodId ≠ pid)).filter
        (fun b => b.periodId ≠ pid) = l.filter (fun b => b.periodId ≠ pid) := by
    intro l
    apply List.filter_eq_self.mpr
    intro b hb
    exact (List.mem_filter.mp hb).2
  have hnew : (result.bills.map (toBillRow pid)).filter
      (fun b => b.periodId ≠ pid) = [] := by
    apply List.filter_eq_nil_iff.mpr
    intro b hb
    obtain ⟨b0, -, hb0⟩ := List.mem_map.mp hb
    subst hb0
    simp [toBillRow]
  have hper : ∀ l : List PeriodRow,
      (l.map (fun p =>
        if p.id = pid then
          { p with status := PeriodStatus.CLOSED, endDate := some now }
        else p)).map (fun p =>
        if p.id = pid then
          { p with status := PeriodStatus.CLOSED, endDate := some now }
        else p) =
      l.map (fun p =>
        if p.id = pid then
          { p with status := PeriodStatus.CLOSED, endDate := some now }
        else p) := by
    intro l
    rw [List.map_map]
    apply List.map_congr_left
    intro p _
    by_cases hp : p.id = pid <;> simp [hp]
  simp only [closePeriodStep, insertBillsStep, deleteBillsStep,
    List.filter_append, hfilter, hnew, List.append_nil, hper]

/-! ## Reopen example state for C4 -/

def exReopenBill : BillRow :=
  ⟨"p", "u1", 10, 0, 10, 15, 5, 20, [], BillStatus.PENDING⟩

def exReopenDB : ReopenDB :=
  { periods := [⟨"p", PeriodStatus.CLOSED, some 5⟩]
    unitCalcs := [⟨"p", "u1"⟩]
    periodCalcs := [⟨"p"⟩]
    bills := [exReopenBill] }

/-- C4 counterexample: reopening a CLOSED period deletes the stored
`unitCalculation`/`periodCalculation` rows and reverts the status, but
the period's `Bill` rows are **not** deleted — they survive the reopen
unchanged, contrary to the claim. -/
theorem claim_C4_counterexample :
    reopenPeriod UserRole.SUPER_ADMIN exReopenDB "p" =
      .ok { periods := [⟨"p", PeriodStatus.PENDING_RECEIPT, some 5⟩]
            unitCalcs := []
            periodCalcs := []
            bills := [exReopenBill] } ∧
    exReopenDB.bills = [exReopenBill] ∧
    exReopenDB.bills ≠ [] := by
  refine ⟨?_, rfl, by simp [exReopenDB]⟩
  simp [reopenPeriod, exReopenDB]

/-- C4 (amended): reopening a CLOSED period (Super Admin only) deletes
the period's stored calculation outputs (`unitCalculation` and
`periodCalculation` rows) and reverts the status to PENDING_RECEIPT,
leaving the `Bill` rows untouched; reopening a non-CLOSED period is
rejected with the specific error
`Can only delete calculations from closed periods` (HTTP 400) before
any write, and a non-Super-Admin caller is rejected with an
access-denied error (HTTP 403). -/
theorem claim_C4 (db : ReopenDB) (pid : String) (period : PeriodRow)
    (hfind : db.periods.find? (fun p => p.id = pid) = some period) :
    (period.status = PeriodStatus.CLOSED →
      reopenPeriod UserRole.SUPER_ADMIN db pid =
        .ok { db with
          unitCalcs := db.unitCalcs.filter (fun c => c.periodId ≠ pid)
          periodCalcs := db.periodCalcs.filter (fun c => c.periodId ≠ pid)
          periods := db.periods.map (fun p =>
            if p.id = pid then { p with status := PeriodStatus.PENDING_RECEIPT }
            else p) }) ∧
    (∀ db', reopenPeriod UserRole.SUPER_ADMIN db pid = .ok db' →
      db'.bills = db.bills) ∧
    (period.status ≠ PeriodStatus.CLOSED →
      reopenPeriod UserRole.SUPER_ADMIN db pid =
        .error ("Can only delete calculations from closed periods", 400)) ∧
    (∀ role, role ≠ UserRole.SUPER_ADMIN →
      reopenPeriod role db pid =
        .error ("Access denied. Only Super Admin can reopen periods.", 403)) := by
  refine ⟨?_, ?_, ?_, ?_⟩
  · intro hst
    simp [reopenPeriod, hfind, hst]
  · intro db' hok
    simp only [reopenPeriod] at hok
    rw [hfind] at hok
    by_cases hst : period.status = PeriodStatus.CLOSED
    · simp only [hst] at hok
      simp at hok
      subst hok
      rfl
    · simp [hst] at hok
  · intro hst
    simp [reopenPeriod, hfind, hst]
  · intro role hrole
    simp [reopenPeriod, hrole]

/-- C4 witness: the example CLOSED period with one bill row. -/
theorem claim_C4_witness :
    (PeriodStatus.CLOSED = PeriodStatus.CLOSED →
      reopenPeriod UserRole.SUPER_ADMIN exReopenDB "p" =
        .ok { exReopenDB with
          unitCalcs := exReopenDB.unitCalcs.filter (fun c => c.periodId ≠ "p")
          periodCalcs := exReopenDB.periodCalcs.filter (fun c => c.periodId ≠ "p")
          periods := exReopenDB.periods.map (fun p =>
            if p.id = "p" then { p with status := PeriodStatus.PENDING_RECEIPT }
            else p) }) ∧
    (∀ db', reopenPeriod UserRole.SUPER_ADMIN exReopenDB "p" = .ok db' →
      db'.bills = exReopenDB.bills) ∧
    (PeriodStatus.CLOSED ≠ PeriodStatus.CLOSED →
      reopenPeriod UserRole.SUPER_ADMIN exReopenDB "p" =
        .error ("Can only delete calculations from closed periods", 400)) ∧
    (∀ role, role ≠ UserRole.SUPER_ADMIN →
      reopenPeriod role exReopenDB "p" =
        .error ("Access denied. Only Super Admin can reopen periods.", 403)) := by
  have h := claim_C4 exReopenDB "p" ⟨"p", PeriodStatus.CLOSED, some 5⟩
    (by simp [exReopenDB])
  exact h

/-! ## C3: validation of receipt totals -/

def exPeriod3 : PeriodRec :=
  ⟨"p", "c", PeriodStatus.CALCULATING, some (-5), some 10, 0⟩

def exDB3 : CalcDB := ⟨[exPeriod3], [⟨"c", []⟩], [], []⟩

/-- C3 counterexample: a CALCULATING period with **negative**
`totalVolume = -5` is *not* rejected by `calculatePeriodBills` — the
guard is the JS truthiness test `!period.totalVolume ||
!period.totalAmount`, which only catches `null`/`NaN`/`0`; the run
succeeds (producing a reconciliation-mismatch anomaly, not an error). -/
theorem claim_C3_counterexample :
    exPeriod3.status = PeriodStatus.CALCULATING ∧
    exPeriod3.totalVolume = some (-5) ∧
    calculatePeriodBills exDB3 "p" =
      .ok ⟨0, 0, 0, [], [Anomaly.totalMismatch 0 10 10]⟩ := by
  refine ⟨rfl, rfl, ?_⟩
  rw [calculatePeriodBills_eq_ok exDB3 "p" exPeriod3
    (by simp [exDB3, exPeriod3]) rfl
    (by norm_num [jsFalsy, exPeriod3]) (by norm_num [jsFalsy, exPeriod3])]
  have hau : activeUnitsOf (condoBlocks exDB3 exPeriod3.condominiumId) = [] := by
    simp [exDB3, exPeriod3, condoBlocks, activeUnitsOf]
  rw [hau, runCalc_eq]
  norm_num [loopBills, loopAnoms, loopTIC, commonAreaTotalCostOf, exPeriod3,
    max_def]

/-- C3 (amended): `calculatePeriodBills` rejects exactly a missing
period, a non-CALCULATING status, and **falsy** (`null`/`NaN`/`0`)
receipt totals — a negative `totalVolume`/`totalAmount` passes its
guard and the calculation proceeds.  The `≤ 0` rejection lives only in
the separate pre-flight `validatePeriodForCalculation`, which flags
non-positive totals and reports the period invalid. -/
theorem claim_C3 (db : CalcDB) (pid : String) :
    (calculatePeriodBills db pid = .error "Period not found" ↔
      db.periods.find? (fun p => p.id == pid) = none) ∧
    (∀ period, db.periods.find? (fun p => p.id == pid) = some period →
      ((calculatePeriodBills db pid =
          .error "Period is not ready for calculation") ↔
        period.status ≠ PeriodStatus.CALCULATING) ∧
      ((calculatePeriodBills db pid =
          .error "Period receipt data is incomplete") ↔
        (period.status = PeriodStatus.CALCULATING ∧
          (jsFalsy period.totalVolume || jsFalsy period.totalAmount) = true)) ∧
      ((∃ r, calculatePeriodBills db pid = .ok r) ↔
        (period.status = PeriodStatus.CALCULATING ∧
          jsFalsy period.totalVolume = false ∧
          jsFalsy period.totalAmount = false)) ∧
      (∀ v : ℚ, period.totalVolume = some v → v ≤ 0 →
        ValidationError.totalVolumeInvalid ∈
          (validatePeriodForCalculation db pid).2 ∧
        (validatePeriodForCalculation db pid).1 = false) ∧
      (∀ v : ℚ, period.totalAmount = some v → v ≤ 0 →
        ValidationError.totalAmountInvalid ∈
          (validatePeriodForCalculation db pid).2 ∧
        (validatePeriodForCalculation db pid).1 = false)) := by
  constructor
  · cases hf : db.periods.find? (fun p => p.id == pid) with
    | none => simp [calculatePeriodBills, hf]
    | some period =>
      simp only [calculatePeriodBills, hf]
      by_cases hst : period.status = PeriodStatus.CALCULATING
      · by_cases hfal :
            (jsFalsy period.totalVolume || jsFalsy period.totalAmount) = true
        · simp [hst, hfal]
        · simp [hst, hfal]
      · simp [hst]
  · intro period hfind
    refine ⟨?_, ?_, ?_, ?_, ?_⟩
    · simp only [calculatePeriodBills, hfind]
      by_cases hst : period.status = PeriodStatus.CALCULATING
      · by_cases hfal :
            (jsFalsy period.totalVolume || jsFalsy period.totalAmount) = true
        · simp [hst, hfal]
        · simp [hst, hfal]
      · simp [hst]
    · simp only [calculatePeriodBills, hfind]
      by_cases hst : period.status = PeriodStatus.CALCULATING
      · by_cases hfal :
            (jsFalsy period.totalVolume || jsFalsy period.totalAmount) = true
        · simp [hst, hfal]
        · simp [hst, hfal]
      · simp [hst]
    · simp only [calculatePeriodBills, hfind]
      by_cases hst : period.status = PeriodStatus.CALCULATING
      · by_cases hfal :
            (jsFalsy period.totalVolume || jsFalsy period.totalAmount) = true
        · simp only [Bool.or_eq_true] at hfal
          simp [hst, hfal]
          rcases hfal with h | h <;> simp [h]
        · simp only [Bool.or_eq_true, not_or, Bool.not_eq_true] at hfal
          simp [hst, hfal.1, hfal.2]
      · simp [hst]
    · intro v hv hle
      have hcond : (jsFalsy period.totalVolume ||
          period.totalVolume.getD 0 ≤ 0) = true := by
        rw [hv]
        rcases lt_or_eq_of_le hle with h | h
        · simp [jsFalsy, Option.getD, hle]
        · simp [jsFalsy, h.symm]
      constructor
      · simp only [validatePeriodForCalculation, hfind, hcond]
        simp
      · simp only [validatePeriodForCalculation, hfind, hcond]
        simp
    · intro v hv hle
      have hcond : (jsFalsy period.totalAmount ||
          period.totalAmount.getD 0 ≤ 0) = true := by
        rw [hv]
        rcases lt_or_eq_of_le hle with h | h
        · simp [jsFalsy, Option.getD, hle]
        · simp [jsFalsy, h.symm]
      constructor
      · simp only [validatePeriodForCalculation, hfind, hcond]
        simp
      · simp only [validatePeriodForCalculation, hfind, hcond]
        simp

/-- C3 witness: the negative-volume period is accepted by
`calculatePeriodBills` yet flagged by the pre-flight validator. -/
theorem claim_C3_witness :
    (∃ r, calculatePeriodBills exDB3 "p" = .ok r) ∧
    ValidationError.totalVolumeInvalid ∈
      (validatePeriodForCalculation exDB3 "p").2 ∧
    (validatePeriodForCalculation exDB3 "p").1 = false := by
  have h := (claim_C3 exDB3 "p").2 exPeriod3 (by simp [exDB3, exPeriod3])
  refine ⟨h.2.2.1.mpr ⟨rfl, by norm_num [jsFalsy, exPeriod3],
    by norm_num [jsFalsy, exPeriod3]⟩, ?_, ?_⟩
  · exact (h.2.2.2.1 (-5) rfl (by norm_num)).1
  · exact (h.2.2.2.1 (-5) rfl (by norm_num)).2

/-! ## C5: the previous-reading lookup -/

def exPeriod5 : PeriodRec :=
  ⟨"p", "c", PeriodStatus.CALCULATING, some 100, some 10, 3⟩

def exOldReading5 : ReadingRec := ⟨"m1", "P1", 42, 5, false, true⟩

def exDB5 : CalcDB :=
  { periods := [exPeriod5,
      ⟨"P1", "c", PeriodStatus.CLOSED, none, none, 1⟩,
      ⟨"P2", "c", PeriodStatus.CLOSED, none, none, 2⟩],
    condos := [⟨"c", [⟨"B",
      [⟨"u1", "U1", true, none, [⟨"m1", true, MeterType.WATER⟩]⟩]⟩]⟩],
    readings := [exOldReading5, ⟨"m1", "p", 50, 10, false, true⟩],
    configs := [] }

def exResult5 : CalculationResult :=
  { totalIndividualConsumption := 8
    commonAreaConsumption := 92
    commonAreaCostPerUnit := 0
    bills := [⟨"u1", "U1", "B", none, 50, 42, 8, 12, 0, 12, none⟩]
    anomalies := [Anomaly.totalMismatch 12 10 2] }

theorem exDB5_prevReading :
    getPreviousReading exDB5 "c" "m1" = some exOldReading5 := by
  simp [getPreviousReading, exDB5, exOldReading5, readingInClosedPeriod,
    pickLatest, exPeriod5]

/-- C5 counterexample: meter `m1` has its only prior reading (value 42)
in the **older** CLOSED period `P1`, while the most recent CLOSED
period of the condominium is `P2` (no reading for `m1` there).  Under
the claim's rule the previous value would be 0; the code instead picks
the reading with the greatest `createdAt` across **all** CLOSED
periods and uses 42 — the produced bill carries
`previousReading = 42`. -/
theorem claim_C5_counterexample :
    (getPreviousReading exDB5 "c" "m1").map (fun r => r.value) = some 42 ∧
    specPreviousReadingValue exDB5 "c" "m1" = 0 ∧
    calculatePeriodBills exDB5 "p" = .ok exResult5 ∧
    exResult5.bills.map (fun b => b.previousReading) = [42] := by
  refine ⟨?_, ?_, ?_, by norm_num [exResult5]⟩
  · rw [exDB5_prevReading]; rfl
  · simp [specPreviousReadingValue, mostRecentClosedPeriod, pickLatest,
      exDB5, exPeriod5, exOldReading5]
  · rw [calculatePeriodBills_eq_ok exDB5 "p" exPeriod5
      (by simp [exDB5, exPeriod5]) rfl
      (by norm_num [jsFalsy, exPeriod5]) (by norm_num [jsFalsy, exPeriod5])]
    have hau : activeUnitsOf (condoBlocks exDB5 exPeriod5.condominiumId) =
        [⟨"u1", "U1", "B", none, "m1"⟩] := by
      simp [exDB5, exPeriod5, condoBlocks, activeUnitsOf, waterMeters]
    have hctx : calcCtx exDB5 "p" exPeriod5 =
        ⟨[⟨"m1", "p", 50, 10, false, true⟩], [("m1", 42)],
          ⟨1.5, none, none, none⟩⟩ := by
      unfold calcCtx
      rw [hau]
      have hprev : getPreviousReadings exDB5 exPeriod5.condominiumId
          (([⟨"u1", "U1", "B", none, "m1"⟩] : List ActiveUnit).map
            (fun au => au.meterId)) = [("m1", 42)] := by
        simp only [List.map_cons, List.map_nil]
        simp [getPreviousReadings, exDB5_prevReading, exOldReading5, exPeriod5]
      rw [hprev]
      simp [periodReadings, exDB5, exPeriod5, getWaterRates, lookupConfig,
        jsOrDefault, jsTruthy2, jsVal2, exOldReading5]
    rw [hctx, hau, runCalc_eq]
    have hbill : loopBills
        (⟨[⟨"m1", "p", 50, 10, false, true⟩], [("m1", 42)],
          ⟨1.5, none, none, none⟩⟩ : LoopCtx)
        [⟨"u1", "U1", "B", none, "m1"⟩] =
        [⟨"u1", "U1", "B", none, 50, 42, 8, 12, 0, 0, none⟩] := by
      simp [loopBills, billOfUnit, lookupPrev]
      norm_num [applyMinimumConsumption, jsTruthy2, jsVal2,
        calculateIndividualCost, round2, jsMathRound_eq_round]
    have hanom : loopAnoms
        (⟨[⟨"m1", "p", 50, 10, false, true⟩], [("m1", 42)],
          ⟨1.5, none, none, none⟩⟩ : LoopCtx)
        [⟨"u1", "U1", "B", none, "m1"⟩] = [] := by
      simp [loopAnoms, anomsOfUnit, lookupPrev]
      norm_num
    have htic : loopTIC
        (⟨[⟨"m1", "p", 50, 10, false, true⟩], [("m1", 42)],
          ⟨1.5, none, none, none⟩⟩ : LoopCtx)
        [⟨"u1", "U1", "B", none, "m1"⟩] = 8 := by
      simp [loopTIC, consumptionOfUnit, lookupPrev]
      norm_num [applyMinimumConsumption, jsTruthy2, jsVal2]
    rw [hbill, hanom, htic]
    norm_num [exPeriod5, exResult5, commonAreaTotalCostOf, max_def]

/-- C5 (amended): the previous reading used for a meter is the most
recently created Reading for that meter among **all** CLOSED periods of
the condominium (not just the most recent CLOSED period); when no such
reading exists the previous value is zero (the map has no entry and
`?.value || 0` yields 0). -/
theorem claim_C5 (db : CalcDB) (cid mid : String) :
    (getPreviousReading db cid mid = none ↔
      db.readings.filter (fun r =>
        r.meterId == mid && readingInClosedPeriod db cid r) = []) ∧
    (∀ rr, getPreviousReading db cid mid = some rr →
      rr ∈ db.readings.filter (fun r =>
        r.meterId == mid && readingInClosedPeriod db cid r) ∧
      ∀ r' ∈ db.readings.filter (fun r =>
        r.meterId == mid && readingInClosedPeriod db cid r),
        r'.createdAt ≤ rr.createdAt) ∧
    lookupPrev (getPreviousReadings db cid [mid]) mid =
      (getPreviousReading db cid mid).map (fun r => r.value) := by
  refine ⟨pickLatest_eq_none_iff _ _, ?_, ?_⟩
  · intro rr hrr
    exact pickLatest_spec _ _ rr hrr
  · rw [lookupPrev_getPreviousReadings]
    simp

/-- C5 witness: on the two-closed-periods example the lookup returns
the reading of the older closed period, which is maximal by creation
time among the meter's closed-period readings. -/
theorem claim_C5_witness :
    exOldReading5 ∈ exDB5.readings.filter (fun r =>
      r.meterId == "m1" && readingInClosedPeriod exDB5 "c" r) ∧
    (∀ r' ∈ exDB5.readings.filter (fun r =>
      r.meterId == "m1" && readingInClosedPeriod exDB5 "c" r),
      r'.createdAt ≤ exOldReading5.createdAt) ∧
    lookupPrev (getPreviousReadings exDB5 "c" ["m1"]) "m1" = some 42 := by
  have h := claim_C5 exDB5 "c" "m1"
  obtain ⟨hmem, hmax⟩ := h.2.1 exOldReading5 exDB5_prevReading
  refine ⟨hmem, hmax, ?_⟩
  rw [h.2.2, exDB5_prevReading]
  rfl

/-! ## C6: the meter-replacement (rollover) policy -/

def exPeriod6 : PeriodRec :=
  ⟨"p", "c", PeriodStatus.CALCULATING, some 100, some 10, 3⟩

def exDB6 : CalcDB :=
  { periods := [exPeriod6, ⟨"P1", "c", PeriodStatus.CLOSED, none, none, 1⟩],
    condos := [⟨"c", [⟨"B",
      [⟨"u1", "U1", true, none, [⟨"m1", true, MeterType.WATER⟩]⟩]⟩]⟩],
    readings := [⟨"m1", "P1", 500, 5, false, true⟩,
      ⟨"m1", "p", 10, 10, false, true⟩],
    configs := [⟨"water_minimum_consumption", some 15⟩] }

def exResult6 : CalculationResult :=
  { totalIndividualConsumption := 15
    commonAreaConsumption := 85
    commonAreaCostPerUnit := 0
    bills := [⟨"u1", "U1", "B", none, 10, 500, 15, 45/2, 0, 45/2, none⟩]
    anomalies := [Anomaly.meterReplacement "U1" 500 10,
      Anomaly.totalMismatch (45/2) 10 (25/2)] }

/-- C6 counterexample: with `water_minimum_consumption = 15`
configured, the rollover unit (previous 500, current 10) is billed a
consumption of **15**, not the current reading value 10 — the
minimum-consumption clamp of lines 154–156 runs *after* the
replacement adjustment, so the claim's unconditional
"consumption equals the current reading value" fails.  The replacement
anomaly is still recorded. -/
theorem claim_C6_counterexample :
    calculatePeriodBills exDB6 "p" = .ok exResult6 ∧
    exResult6.bills.map (fun b => b.consumption) = [15] ∧
    exResult6.bills.map (fun b => b.currentReading) = [10] ∧
    Anomaly.meterReplacement "U1" 500 10 ∈ exResult6.anomalies := by
  refine ⟨?_, by norm_num [exResult6], by norm_num [exResult6],
    by simp [exResult6]⟩
  rw [calculatePeriodBills_eq_ok exDB6 "p" exPeriod6
    (by simp [exDB6, exPeriod6]) rfl
    (by norm_num [jsFalsy, exPeriod6]) (by norm_num [jsFalsy, exPeriod6])]
  have hau : activeUnitsOf (condoBlocks exDB6 exPeriod6.condominiumId) =
      [⟨"u1", "U1", "B", none, "m1"⟩] := by
    simp [exDB6, exPeriod6, condoBlocks, activeUnitsOf, waterMeters]
  have hctx : calcCtx exDB6 "p" exPeriod6 =
      ⟨[⟨"m1", "p", 10, 10, false, true⟩], [("m1", 500)],
        ⟨1.5, none, none, some (some 15)⟩⟩ := by
    unfold calcCtx
    rw [hau]
    have hpr : getPreviousReading exDB6 "c" "m1" =
        some ⟨"m1", "P1", 500, 5, false, true⟩ := by
      simp [getPreviousReading, exDB6, readingInClosedPeriod, pickLatest,
        exPeriod6]
    have hprev : getPreviousReadings exDB6 exPeriod6.condominiumId
        (([⟨"u1", "U1", "B", none, "m1"⟩] : List ActiveUnit).map
          (fun au => au.meterId)) = [("m1", 500)] := by
      simp only [List.map_cons, List.map_nil]
      simp [getPreviousReadings, hpr, exPeriod6]
    rw [hprev]
    simp [periodReadings, exDB6, exPeriod6, getWaterRates, lookupConfig,
      jsOrDefault, jsTruthy2, jsVal2]
  rw [hctx, hau, runCalc_eq]
  have hbill : loopBills
      (⟨[⟨"m1", "p", 10, 10, false, true⟩], [("m1", 500)],
        ⟨1.5, none, none, some (some 15)⟩⟩ : LoopCtx)
      [⟨"u1", "U1", "B", none, "m1"⟩] =
      [⟨"u1", "U1", "B", none, 10, 500, 15, 45/2, 0, 0, none⟩] := by
    simp [loopBills, billOfUnit, lookupPrev]
    norm_num [applyMinimumConsumption, jsTruthy2, jsVal2,
      calculateIndividualCost, round2, jsMathRound_eq_round]
  have hanom : loopAnoms
      (⟨[⟨"m1", "p", 10, 10, false, true⟩], [("m1", 500)],
        ⟨1.5, none, none, some (some 15)⟩⟩ : LoopCtx)
      [⟨"u1", "U1", "B", none, "m1"⟩] =
      [Anomaly.meterReplacement "U1" 500 10] := by
    simp [loopAnoms, anomsOfUnit, lookupPrev]
    norm_num
  have htic : loopTIC
      (⟨[⟨"m1", "p", 10, 10, false, true⟩], [("m1", 500)],
        ⟨1.5, none, none, some (some 15)⟩⟩ : LoopCtx)
      [⟨"u1", "U1", "B", none, "m1"⟩] = 15 := by
    simp [loopTIC, consumptionOfUnit, lookupPrev]
    norm_num [applyMinimumConsumption, jsTruthy2, jsVal2]
  rw [hbill, hanom, htic]
  norm_num [exPeriod6, exResult6, commonAreaTotalCostOf, max_def, abs_of_pos]

/-- C6 (amended): for a unit whose current reading is below the
previous value, the loop takes the current reading value itself as the
consumption (not the negative delta), records a replacement anomaly
naming the unit with both values, pushes a bill and continues — but
the billed consumption is the current value only *after* the
minimum-consumption clamp: when no minimum is configured (or it is not
truthy) the billed consumption equals the current reading value
exactly. -/
theorem claim_C6 (ctx : LoopCtx) (s : LoopState) (au : ActiveUnit)
    (current : ReadingRec)
    (hfind : ctx.readings.find? (fun r => r.meterId == au.meterId) =
      some current)
    (hneg : current.value <
      (lookupPrev ctx.previousReadings au.meterId).getD 0) :
    stepUnit ctx s au =
      { bills := s.bills ++ [{
          unitId := au.unitId
          unitName := au.unitName
          blockName := au.blockName
          residentName := au.residentName
          currentReading := current.value
          previousReading := (lookupPrev ctx.previousReadings au.meterId).getD 0
          consumption := applyMinimumConsumption ctx.rates current.value
          individualCost := calculateIndividualCost
            (applyMinimumConsumption ctx.rates current.value) ctx.rates
          commonAreaCost := 0
          totalCost := 0
          extraCharges := none }]
        anomalies := s.anomalies ++ [Anomaly.meterReplacement au.unitName
          ((lookupPrev ctx.previousReadings au.meterId).getD 0) current.value]
        totalIndividualConsumption := s.totalIndividualConsumption +
          applyMinimumConsumption ctx.rates current.value } ∧
    (jsTruthy2 ctx.rates.minimumConsumption = false →
      applyMinimumConsumption ctx.rates current.value = current.value) := by
  constructor
  · have hneg' : current.value -
        (lookupPrev ctx.previousReadings au.meterId).getD 0 < 0 :=
      sub_neg.mpr hneg
    simp [stepUnit, hfind, hneg']
  · intro hmin
    simp [applyMinimumConsumption, hmin]

/-- C6 witness: previous 500, current 10, default rates (no minimum
configured) — the billed consumption is exactly 10 and the replacement
anomaly names the unit and both values. -/
theorem claim_C6_witness :
    stepUnit
      (⟨[⟨"m1", "p", 10, 10, false, true⟩], [("m1", 500)],
        ⟨1.5, none, none, none⟩⟩ : LoopCtx)
      ⟨[], [], 0⟩ ⟨"u1", "U1", "B", none, "m1"⟩ =
      { bills := [⟨"u1", "U1", "B", none, 10, 500, 10, 15, 0, 0, none⟩]
        anomalies := [Anomaly.meterReplacement "U1" 500 10]
        totalIndividualConsumption := 10 } := by
  have h := claim_C6
    (⟨[⟨"m1", "p", 10, 10, false, true⟩], [("m1", 500)],
      ⟨1.5, none, none, none⟩⟩ : LoopCtx)
    ⟨[], [], 0⟩ ⟨"u1", "U1", "B", none, "m1"⟩ ⟨"m1", "p", 10, 10, false, true⟩
    (by simp [lookupPrev]) (by norm_num [lookupPrev])
  rw [h.1]
  norm_num [lookupPrev, applyMinimumConsumption, jsTruthy2, jsVal2,
    calculateIndividualCost, round2, jsMathRound_eq_round]

/-! ## C9 helpers: congruence of the unit loop in the loop context -/

/-- The per-block portion of `activeUnitsOf`. -/
def unitEntries (bn : String) (us : List UnitRec) : List ActiveUnit :=
  us.filterMap (fun u =>
    if u.isActive then
      match waterMeters u with
      | [] => none
      | m :: _ =>
        some { unitId := u.id, unitName := u.name, blockName := bn,
               residentName := u.residentName, meterId := m.id }
    else none)

theorem activeUnitsOf_eq_flatMap (blocks : List BlockRec) :
    activeUnitsOf blocks = blocks.flatMap (fun b => unitEntries b.name b.units) :=
  rfl

/-- The three per-unit loop functions only read the context through its
readings, its rates, and the previous-value lookup at the unit's own
meter. -/
theorem loopFuns_congr (ctx ctx' : LoopCtx) (au : ActiveUnit)
    (hr : ctx.readings = ctx'.readings) (hrat : ctx.rates = ctx'.rates)
    (hp : lookupPrev ctx.previousReadings au.meterId =
      lookupPrev ctx'.previousReadings au.meterId) :
    billOfUnit ctx au = billOfUnit ctx' au ∧
    anomsOfUnit ctx au = anomsOfUnit ctx' au ∧
    consumptionOfUnit ctx au = consumptionOfUnit ctx' au := by
  unfold billOfUnit anomsOfUnit consumptionOfUnit
  rw [hr, hrat, hp]
  exact ⟨rfl, rfl, rfl⟩

/-- A bill emitted by the loop carries the unit id of its entry. -/
theorem billOfUnit_unitId (ctx : LoopCtx) (au : ActiveUnit) (b : BillData)
    (h : billOfUnit ctx au = some b) : b.unitId = au.unitId := by
  unfold billOfUnit at h
  cases hf : ctx.readings.find? (fun r => r.meterId == au.meterId) with
  | none => rw [hf] at h; exact absurd h (by simp)
  | some current =>
    rw [hf] at h
    simp only [Option.some.injEq] at h
    subst h
    rfl

/-- A missing current reading for a unit contributes no bill, no
consumption, and exactly the missing-reading anomaly. -/
theorem loopFuns_missing (ctx : LoopCtx) (au : ActiveUnit)
    (h : ctx.readings.find? (fun r => r.meterId == au.meterId) = none) :
    billOfUnit ctx au = none ∧
    anomsOfUnit ctx au = [Anomaly.missingReading au.unitName au.blockName] ∧
    consumptionOfUnit ctx au = 0 := by
  unfold billOfUnit anomsOfUnit consumptionOfUnit
  rw [h]
  exact ⟨rfl, rfl, rfl⟩

theorem flatMap_congr_mem {α β : Type} (l : List α) (f g : α → List β)
    (h : ∀ a ∈ l, f a = g a) : l.flatMap f = l.flatMap g := by
  induction l with
  | nil => rfl
  | cons x xs ih =>
    rw [List.flatMap_cons, List.flatMap_cons, h x (List.mem_cons_self x xs),
      ih (fun a ha => h a (List.mem_cons_of_mem x ha))]

theorem mem_ite_append {α : Type} (a : α) (l tail : List α) (c : Prop)
    [Decidable c] (h : a ∈ l) : a ∈ (if c then l ++ tail else l) := by
  split
  · exact List.mem_append_left _ h
  · exact h

theorem loopBills_append (ctx : LoopCtx) (l1 l2 : List ActiveUnit) :
    loopBills ctx (l1 ++ l2) = loopBills ctx l1 ++ loopBills ctx l2 := by
  simp [loopBills]

theorem loopBills_cons (ctx : LoopCtx) (a : ActiveUnit)
    (l : List ActiveUnit) :
    loopBills ctx (a :: l) = (billOfUnit ctx a).toList ++ loopBills ctx l := by
  simp [loopBills]

theorem loopBills_congr (ctx ctx' : LoopCtx) (l : List ActiveUnit)
    (h : ∀ au ∈ l, billOfUnit ctx au = billOfUnit ctx' au) :
    loopBills ctx l = loopBills ctx' l :=
  flatMap_congr_mem l _ _ (fun a ha => by rw [h a ha])

theorem loopTIC_append (ctx : LoopCtx) (l1 l2 : List ActiveUnit) :
    loopTIC ctx (l1 ++ l2) = loopTIC ctx l1 + loopTIC ctx l2 := by
  simp [loopTIC]

theorem loopTIC_cons (ctx : LoopCtx) (a : ActiveUnit) (l : List ActiveUnit) :
    loopTIC ctx (a :: l) = consumptionOfUnit ctx a + loopTIC ctx l := by
  simp [loopTIC]

theorem loopTIC_congr (ctx ctx' : LoopCtx) (l : List ActiveUnit)
    (h : ∀ au ∈ l, consumptionOfUnit ctx au = consumptionOfUnit ctx' au) :
    loopTIC ctx l = loopTIC ctx' l := by
  unfold loopTIC
  rw [List.map_congr_left h]

/-- C9: an active unit with an active water meter but no Reading for
the period is excluded from the bills, contributes a missing-reading
anomaly, does not abort the pass, and leaves every other unit's
computed values exactly as they would be had the unit not been in the
condominium at all. -/
theorem claim_C9
    (periods : List PeriodRec) (readings : List ReadingRec)
    (configs : List ConfigRow) (cid pid bn : String)
    (bs1 bs2 : List BlockRec) (us1 us2 : List UnitRec)
    (u : UnitRec) (m : MeterRec)
    (period : PeriodRec) (r r' : CalculationResult)
    (hu : u.isActive = true) (hm : waterMeters u = [m])
    (hfind : periods.find? (fun p => p.id == pid) = some period)
    (hcid : period.condominiumId = cid)
    (hnoread : (readings.filter (fun x => x.periodId == pid)).find?
      (fun x => x.meterId == m.id) = none)
    (hok : calculatePeriodBills
      ⟨periods, [⟨cid, bs1 ++ ⟨bn, us1 ++ u :: us2⟩ :: bs2⟩], readings, configs⟩
      pid = .ok r)
    (hok' : calculatePeriodBills
      ⟨periods, [⟨cid, bs1 ++ ⟨bn, us1 ++ us2⟩ :: bs2⟩], readings, configs⟩
      pid = .ok r') :
    r.bills = r'.bills ∧
    r.totalIndividualConsumption = r'.totalIndividualConsumption ∧
    r.commonAreaConsumption = r'.commonAreaConsumption ∧
    r.commonAreaCostPerUnit = r'.commonAreaCostPerUnit ∧
    Anomaly.missingReading u.name bn ∈ r.anomalies ∧
    ((∀ au ∈ activeUnitsOf (bs1 ++ ⟨bn, us1 ++ us2⟩ :: bs2),
        au.unitId ≠ u.id) →
      ∀ b ∈ r.bills, b.unitId ≠ u.id) := by
  obtain ⟨pU, hfindU, hstU, hvolU, hamtU, hrU⟩ :=
    calculatePeriodBills_ok_cases _ pid r hok
  obtain ⟨pW, hfindW, hstW, hvolW, hamtW, hrW⟩ :=
    calculatePeriodBills_ok_cases _ pid r' hok'
  have hpU : pU = period := by
    have := hfind.symm.trans hfindU
    exact (Option.some.inj this).symm
  have hpW : pW = period := by
    have := hfind.symm.trans hfindW
    exact (Option.some.inj this).symm
  rw [hpU] at hstU hvolU hamtU hrU
  rw [hpW] at hstW hvolW hamtW hrW
  set dbU : CalcDB :=
    ⟨periods, [⟨cid, bs1 ++ ⟨bn, us1 ++ u :: us2⟩ :: bs2⟩], readings, configs⟩
    with hdbU
  set dbW : CalcDB :=
    ⟨periods, [⟨cid, bs1 ++ ⟨bn, us1 ++ us2⟩ :: bs2⟩], readings, configs⟩
    with hdbW
  set auU : ActiveUnit :=
    ⟨u.id, u.name, bn, u.residentName, m.id⟩ with hauU
  set P : List ActiveUnit :=
    activeUnitsOf bs1 ++ unitEntries bn us1 with hP
  set S : List ActiveUnit :=
    unitEntries bn us2 ++ activeUnitsOf bs2 with hS
  have hblkU : condoBlocks dbU period.condominiumId =
      bs1 ++ ⟨bn, us1 ++ u :: us2⟩ :: bs2 := by
    rw [hcid]; simp [condoBlocks, hdbU]
  have hblkW : condoBlocks dbW period.condominiumId =
      bs1 ++ ⟨bn, us1 ++ us2⟩ :: bs2 := by
    rw [hcid]; simp [condoBlocks, hdbW]
  have hmidU : unitEntries bn (us1 ++ u :: us2) =
      unitEntries bn us1 ++ auU :: unitEntries bn us2 := by
    unfold unitEntries
    rw [List.filterMap_append, List.filterMap_cons]
    simp [hu, hm, hauU]
  have hausU : activeUnitsOf (condoBlocks dbU period.condominiumId) =
      P ++ auU :: S := by
    rw [hblkU, activeUnitsOf_eq_flatMap, List.flatMap_append,
      List.flatMap_cons]
    show activeUnitsOf bs1 ++ (unitEntries bn (us1 ++ u :: us2) ++
      activeUnitsOf bs2) = _
    rw [hmidU, hP, hS]
    simp [List.append_assoc]
  have hausW : activeUnitsOf (condoBlocks dbW period.condominiumId) =
      P ++ S := by
    rw [hblkW, activeUnitsOf_eq_flatMap, List.flatMap_append,
      List.flatMap_cons]
    show activeUnitsOf bs1 ++ (unitEntries bn (us1 ++ us2) ++
      activeUnitsOf bs2) = _
    unfold unitEntries
    rw [List.filterMap_append, hP, hS]
    simp [List.append_assoc, unitEntries]
  set ctxU : LoopCtx := calcCtx dbU pid period with hctxU
  set ctxW : LoopCtx := calcCtx dbW pid period with hctxW
  have hreadings : ctxU.readings = ctxW.readings := rfl
  have hrates : ctxU.rates = ctxW.rates := rfl
  have hgpr : ∀ x, getPreviousReading dbU period.condominiumId x =
      getPreviousReading dbW period.condominiumId x := fun _ => rfl
  have hprevU : ctxU.previousReadings = getPreviousReadings dbU
      period.condominiumId ((P ++ auU :: S).map (fun au => au.meterId)) := by
    rw [hctxU]
    show getPreviousReadings dbU period.condominiumId
      ((activeUnitsOf (condoBlocks dbU period.condominiumId)).map
        (fun au => au.meterId)) = _
    rw [hausU]
  have hprevW : ctxW.previousReadings = getPreviousReadings dbW
      period.condominiumId ((P ++ S).map (fun au => au.meterId)) := by
    rw [hctxW]
    show getPreviousReadings dbW period.condominiumId
      ((activeUnitsOf (condoBlocks dbW period.condominiumId)).map
        (fun au => au.meterId)) = _
    rw [hausW]
  have hcongr : ∀ au ∈ P ++ S,
      billOfUnit ctxU au = billOfUnit ctxW au ∧
      anomsOfUnit ctxU au = anomsOfUnit ctxW au ∧
      consumptionOfUnit ctxU au = consumptionOfUnit ctxW au := by
    intro au hau
    apply loopFuns_congr ctxU ctxW au hreadings hrates
    rw [hprevU, hprevW, lookupPrev_getPreviousReadings,
      lookupPrev_getPreviousReadings]
    have hmemW : au.meterId ∈ (P ++ S).map (fun au => au.meterId) :=
      List.mem_map_of_mem _ hau
    have hmemU : au.meterId ∈ (P ++ auU :: S).map (fun au => au.meterId) := by
      rcases List.mem_append.mp hau with h | h
      · exact List.mem_map_of_mem _ (List.mem_append_left _ h)
      · exact List.mem_map_of_mem _
          (List.mem_append_right _ (List.mem_cons_of_mem _ h))
    rw [if_pos hmemU, if_pos hmemW, hgpr]
  have hmissU : billOfUnit ctxU auU = none ∧
      anomsOfUnit ctxU auU = [Anomaly.missingReading u.name bn] ∧
      consumptionOfUnit ctxU auU = 0 := by
    have h := loopFuns_missing ctxU auU (by
      show (periodReadings dbU pid).find? (fun x => x.meterId == auU.meterId)
        = none
      exact hnoread)
    simpa [hauU] using h
  have hBills : loopBills ctxU (P ++ auU :: S) = loopBills ctxW (P ++ S) := by
    rw [loopBills_append ctxU P (auU :: S), loopBills_cons ctxU auU S,
      hmissU.1, loopBills_append ctxW P S,
      loopBills_congr ctxU ctxW P (fun a ha =>
        (hcongr a (List.mem_append_left _ ha)).1),
      loopBills_congr ctxU ctxW S (fun a ha =>
        (hcongr a (List.mem_append_right _ ha)).1)]
    simp
  have hTIC : loopTIC ctxU (P ++ auU :: S) = loopTIC ctxW (P ++ S) := by
    rw [loopTIC_append ctxU P (auU :: S), loopTIC_cons ctxU auU S,
      hmissU.2.2, loopTIC_append ctxW P S,
      loopTIC_congr ctxU ctxW P (fun a ha =>
        (hcongr a (List.mem_append_left _ ha)).2.2),
      loopTIC_congr ctxU ctxW S (fun a ha =>
        (hcongr a (List.mem_append_right _ ha)).2.2)]
    ring
  have haus2 : activeUnitsOf (bs1 ++ ⟨bn, us1 ++ us2⟩ :: bs2) = P ++ S := by
    rw [← hblkW]; exact hausW
  rw [hrU, hrW, hausU, hausW, runCalc_eq, runCalc_eq]
  rw [hBills, hTIC]
  refine ⟨rfl, rfl, rfl, rfl, ?_, ?_⟩
  · -- the missing-reading anomaly is in the anomalies list
    have hmem : Anomaly.missingReading u.name bn ∈
        loopAnoms ctxU (P ++ auU :: S) := by
      unfold loopAnoms
      refine List.mem_flatMap.mpr ⟨auU, ?_, ?_⟩
      · exact List.mem_append_right _ (List.mem_cons_self _ _)
      · rw [hmissU.2.1]; exact List.mem_singleton.mpr rfl
    dsimp only
    exact mem_ite_append _ _ _ _ hmem
  · intro hfresh b hb
    dsimp only at hb
    simp only [List.mem_map] at hb
    obtain ⟨b0, hb0, hball⟩ := hb
    simp [loopBills] at hb0
    obtain ⟨au, hauMem, hsome⟩ :
        ∃ a, a ∈ P ++ S ∧ billOfUnit ctxW a = some b0 := by
      rcases hb0 with ⟨a, ha, hs⟩ | ⟨a, ha, hs⟩
      · exact ⟨a, List.mem_append_left _ ha, hs⟩
      · exact ⟨a, List.mem_append_right _ ha, hs⟩
    have huid : b0.unitId = au.unitId := billOfUnit_unitId ctxW au b0 hsome
    have hne : au.unitId ≠ u.id := by
      apply hfresh
      rw [haus2]
      exact hauMem
    subst hball
    simpa [huid] using hne

/-! ## C9 witness data: unit U2 has no reading for the period -/

def exU1 : UnitRec := ⟨"u1", "U1", true, none, [⟨"m1", true, MeterType.WATER⟩]⟩
def exU2 : UnitRec := ⟨"u2", "U2", true, none, [⟨"m2", true, MeterType.WATER⟩]⟩

def exPeriod9 : PeriodRec :=
  ⟨"p", "c", PeriodStatus.CALCULATING, some 50, some 30, 1⟩

def exDB9U : CalcDB :=
  ⟨[exPeriod9], [⟨"c", [⟨"B", [exU1, exU2]⟩]⟩],
    [⟨"m1", "p", 20, 1, false, true⟩], []⟩

def exDB9W : CalcDB :=
  ⟨[exPeriod9], [⟨"c", [⟨"B", [exU1]⟩]⟩],
    [⟨"m1", "p", 20, 1, false, true⟩], []⟩

def exResult9U : CalculationResult :=
  ⟨20, 30, 0, [⟨"u1", "U1", "B", none, 20, 0, 20, 30, 0, 30, none⟩],
    [Anomaly.missingReading "U2" "B"]⟩

def exResult9W : CalculationResult :=
  ⟨20, 30, 0, [⟨"u1", "U1", "B", none, 20, 0, 20, 30, 0, 30, none⟩], []⟩

theorem exDB9U_calc : calculatePeriodBills exDB9U "p" = .ok exResult9U := by
  rw [calculatePeriodBills_eq_ok exDB9U "p" exPeriod9
    (by simp [exDB9U, exPeriod9]) rfl
    (by norm_num [jsFalsy, exPeriod9]) (by norm_num [jsFalsy, exPeriod9])]
  have hau : activeUnitsOf (condoBlocks exDB9U exPeriod9.condominiumId) =
      [⟨"u1", "U1", "B", none, "m1"⟩, ⟨"u2", "U2", "B", none, "m2"⟩] := by
    simp [exDB9U, exPeriod9, condoBlocks, activeUnitsOf, waterMeters,
      exU1, exU2]
  have hctx : calcCtx exDB9U "p" exPeriod9 =
      ⟨[⟨"m1", "p", 20, 1, false, true⟩], [], ⟨1.5, none, none, none⟩⟩ := by
    unfold calcCtx
    rw [hau]
    have hprev : getPreviousReadings exDB9U exPeriod9.condominiumId
        (([⟨"u1", "U1", "B", none, "m1"⟩,
          ⟨"u2", "U2", "B", none, "m2"⟩] : List ActiveUnit).map
          (fun au => au.meterId)) = [] := by
      simp [getPreviousReadings, getPreviousReading, readingInClosedPeriod,
        pickLatest, exDB9U, exPeriod9]
    rw [hprev]
    simp [periodReadings, exDB9U, exPeriod9, getWaterRates, lookupConfig,
      jsOrDefault, jsTruthy2, jsVal2]
  rw [hctx, hau, runCalc_eq]
  have hbill : loopBills
      (⟨[⟨"m1", "p", 20, 1, false, true⟩], [],
        ⟨1.5, none, none, none⟩⟩ : LoopCtx)
      [⟨"u1", "U1", "B", none, "m1"⟩, ⟨"u2", "U2", "B", none, "m2"⟩] =
      [⟨"u1", "U1", "B", none, 20, 0, 20, 30, 0, 0, none⟩] := by
    simp [loopBills, billOfUnit, lookupPrev]
    norm_num [applyMinimumConsumption, jsTruthy2, jsVal2,
      calculateIndividualCost, round2, jsMathRound_eq_round]
  have hanom : loopAnoms
      (⟨[⟨"m1", "p", 20, 1, false, true⟩], [],
        ⟨1.5, none, none, none⟩⟩ : LoopCtx)
      [⟨"u1", "U1", "B", none, "m1"⟩, ⟨"u2", "U2", "B", none, "m2"⟩] =
      [Anomaly.missingReading "U2" "B"] := by
    simp [loopAnoms, anomsOfUnit, lookupPrev]
  have htic : loopTIC
      (⟨[⟨"m1", "p", 20, 1, false, true⟩], [],
        ⟨1.5, none, none, none⟩⟩ : LoopCtx)
      [⟨"u1", "U1", "B", none, "m1"⟩, ⟨"u2", "U2", "B", none, "m2"⟩] = 20 := by
    simp [loopTIC, consumptionOfUnit, lookupPrev]
    norm_num [applyMinimumConsumption, jsTruthy2, jsVal2]
  rw [hbill, hanom, htic]
  norm_num [exPeriod9, exResult9U, commonAreaTotalCostOf, max_def]

theorem exDB9W_calc : calculatePeriodBills exDB9W "p" = .ok exResult9W := by
  rw [calculatePeriodBills_eq_ok exDB9W "p" exPeriod9
    (by simp [exDB9W, exPeriod9]) rfl
    (by norm_num [jsFalsy, exPeriod9]) (by norm_num [jsFalsy, exPeriod9])]
  have hau : activeUnitsOf (condoBlocks exDB9W exPeriod9.condominiumId) =
      [⟨"u1", "U1", "B", none, "m1"⟩] := by
    simp [exDB9W, exPeriod9, condoBlocks, activeUnitsOf, waterMeters, exU1]
  have hctx : calcCtx exDB9W "p" exPeriod9 =
      ⟨[⟨"m1", "p", 20, 1, false, true⟩], [], ⟨1.5, none, none, none⟩⟩ := by
    unfold calcCtx
    rw [hau]
    have hprev : getPreviousReadings exDB9W exPeriod9.condominiumId
        (([⟨"u1", "U1", "B", none, "m1"⟩] : List ActiveUnit).map
          (fun au => au.meterId)) = [] := by
      simp [getPreviousReadings, getPreviousReading, readingInClosedPeriod,
        pickLatest, exDB9W, exPeriod9]
    rw [hprev]
    simp [periodReadings, exDB9W, exPeriod9, getWaterRates, lookupConfig,
      jsOrDefault, jsTruthy2, jsVal2]
  rw [hctx, hau, runCalc_eq]
  have hbill : loopBills
      (⟨[⟨"m1", "p", 20, 1, false, true⟩], [],
        ⟨1.5, none, none, none⟩⟩ : LoopCtx)
      [⟨"u1", "U1", "B", none, "m1"⟩] =
      [⟨"u1", "U1", "B", none, 20, 0, 20, 30, 0, 0, none⟩] := by
    simp [loopBills, billOfUnit, lookupPrev]
    norm_num [applyMinimumConsumption, jsTruthy2, jsVal2,
      calculateIndividualCost, round2, jsMathRound_eq_round]
  have hanom : loopAnoms
      (⟨[⟨"m1", "p", 20, 1, false, true⟩], [],
        ⟨1.5, none, none, none⟩⟩ : LoopCtx)
      [⟨"u1", "U1", "B", none, "m1"⟩] = [] := by
    simp [loopAnoms, anomsOfUnit, lookupPrev]
  have htic : loopTIC
      (⟨[⟨"m1", "p", 20, 1, false, true⟩], [],
        ⟨1.5, none, none, none⟩⟩ : LoopCtx)
      [⟨"u1", "U1", "B", none, "m1"⟩] = 20 := by
    simp [loopTIC, consumptionOfUnit, lookupPrev]
    norm_num [applyMinimumConsumption, jsTruthy2, jsVal2]
  rw [hbill, hanom, htic]
  norm_num [exPeriod9, exResult9W, commonAreaTotalCostOf, max_def]

/-- C9 witness: two units, U2 without a reading; the pass with U2
present yields the same bills and allocation as the pass without U2,
plus the missing-reading anomaly. -/
theorem claim_C9_witness :
    exResult9U.bills = exResult9W.bills ∧
    exResult9U.totalIndividualConsumption =
      exResult9W.totalIndividualConsumption ∧
    exResult9U.commonAreaConsumption = exResult9W.commonAreaConsumption ∧
    exResult9U.commonAreaCostPerUnit = exResult9W.commonAreaCostPerUnit ∧
    Anomaly.missingReading exU2.name "B" ∈ exResult9U.anomalies ∧
    ((∀ au ∈ activeUnitsOf ([] ++ ⟨"B", [exU1] ++ []⟩ :: []),
        au.unitId ≠ exU2.id) →
      ∀ b ∈ exResult9U.bills, b.unitId ≠ exU2.id) :=
  claim_C9 [exPeriod9] [⟨"m1", "p", 20, 1, false, true⟩] [] "c" "p" "B"
    [] [] [exU1] [] exU2 ⟨"m2", true, MeterType.WATER⟩ exPeriod9
    exResult9U exResult9W rfl (by simp [waterMeters, exU2]) (by simp [exPeriod9])
    rfl (by simp) exDB9U_calc exDB9W_calc

end WaterBilling

